import Mathlib

/-!
CC23x0 SYSTIM tick source and standby controller

A shallow embedding of

* `drivers/timer/cc23x0_systim_timer.c` (the kernel tick source),
* `soc/ti/simplelink/cc23x0/power.c` (the power-state controller, `enterStandby`), and
* `subsys/bluetooth/controller/hci/ti/hci_driver.c` (the HCI driver glue).

Machine integers are natural numbers with explicit reduction modulo `2^32`.
Registers are fields of a record, the write-only trigger registers and the
calls into other modules are recorded as events of a trace.  Constants of the
timer and the power controller that come from headers outside the sources are
fields of `Consts`.
-/

namespace CC23x0

/-! ## 32-bit arithmetic -/

/-- Truncation of a natural number to `uint32_t`. -/
def u32 (n : Nat) : Nat := n % 2 ^ 32

/-- Subtraction of `uint32_t` values, `a - b` with wrap-around. -/
def sub32 (a b : Nat) : Nat := (a % 2 ^ 32 + 2 ^ 32 - b % 2 ^ 32) % 2 ^ 32

/-- Conversion of an `int32_t` to `uint32_t` (the usual arithmetic conversion
applied to `ticks` in `ticks * TICK_PERIOD_SYS`). -/
def toU32 (i : Int) : Nat := (i % 2 ^ 32).toNat

/-! ## Constants defined outside the two source files -/

/-- Constants whose definitions live in headers that are not part of the
sources (Zephyr configuration, TI driverlib and TI power driver headers).
Every theorem quantifies over them. -/
structure Consts where
  /-- `TICK_PERIOD_SYS = USEC_PER_SEC / CONFIG_SYS_CLOCK_TICKS_PER_SEC`, unsigned. -/
  TICK_PERIOD_SYS : Nat
  /-- `K_TICKS_FOREVER`, the "no timeout" sentinel of the kernel. -/
  K_TICKS_FOREVER : Int
  /-- `PowerCC23X0_TOTALTIMESTANDBY`, total standby latency in microseconds. -/
  PowerCC23X0_TOTALTIMESTANDBY : Nat
  /-- `PowerCC23X0_WAKEDELAYSTANDBY`, wake-up delay in microseconds. -/
  PowerCC23X0_WAKEDELAYSTANDBY : Nat
  /-- `PowerLPF3_DISALLOW_STANDBY`, a bit index of the constraint mask. -/
  PowerLPF3_DISALLOW_STANDBY : Nat
  /-- `PowerLPF3_DISALLOW_IDLE`, a bit index of the constraint mask. -/
  PowerLPF3_DISALLOW_IDLE : Nat
  /-- `PowerLPF3_STANDBY`, the argument of `Power_sleep`. -/
  PowerLPF3_STANDBY : Nat
  /-- `PowerLPF3_AWAKE_STANDBY`, the wake-up notification code. -/
  PowerLPF3_AWAKE_STANDBY : Nat
  CKMD_LFCLKSEL_MAIN_M : Nat
  CKMD_LFCLKSEL_MAIN_LFOSC : Nat
  CKMD_LFCLKSTAT_FLTSETTLED_M : Nat
  EVTSVT_CPUIRQ16SEL_PUBID_AON_RTC_COMB : Nat
  EVTSVT_CPUIRQ16SEL_PUBID_SYSTIM0 : Nat
  SYSTIM_STATUS_VAL_RUN : Nat
  SYSTIM_ICLR_EV0_CLR : Nat
  SYSTIM_IMSET_EV0_SET : Nat
  SYSTIM_EMU_HALT_STOP : Nat
  RTC_ARMCLR_CH0_CLR : Nat
  RTC_ICLR_EV0_CLR : Nat

/-- `SYSTIM_TIMEOUT_MAX` of the timer driver. -/
def SYSTIM_TIMEOUT_MAX : Nat := 0xFFBFFFFF

/-- `MAX_SYSTIMER_DELTA` of the power controller. -/
def MAX_SYSTIMER_DELTA : Nat := 0xFFBFFFFF

/-- `RTC_TO_SYSTIMER_TICKS`: the RTC counts in 8us, the SysTimer in 1us. -/
def RTC_TO_SYSTIMER_TICKS : Nat := 8

/-- `SYSTIMER_CHANNEL_COUNT`. -/
def SYSTIMER_CHANNEL_COUNT : Nat := 5

/-- `sysTimerResolutionShift[i]`: shift between the channel resolution and 1us. -/
def sysTimerResolutionShift (i : Nat) : Nat := [0, 0, 2, 2, 2].getD i 0

/-- Modelled from the spec: the macro `Math_MIN` of `ti/drivers/utils/Math.h`
is not part of the sources; the spec says the loop "tracks the minimum across
all active channels". -/
def Math_MIN (x y : Nat) : Nat := if x < y then x else y

/-! ## Machine state -/

/-- Effects other than plain register updates, every register write and every
store to `last_systim_count`, in program order. -/
inductive Event where
  /-- `__WFI()`. -/
  | wfi
  /-- `Power_sleep(mode)`. -/
  | powerSleep (mode : Nat)
  /-- `Power_shutdown(0, 0)`. -/
  | powerShutdown
  /-- `HwiP_clearInterrupt(INT_CPUIRQ16)`. -/
  | clearInterrupt
  /-- `ULLSync()`. -/
  | ullSync
  /-- `LRFDApplyClockDependencies()`. -/
  | lrfdApplyClockDependencies
  /-- `PowerCC23X0_notify(eventType)`. -/
  | powerNotify (eventType : Nat)
  /-- `sys_clock_announce(ticks)`, with the `int32_t` argument the kernel receives. -/
  | announce (ticks : Int)
  /-- Store of `v` to the global `last_systim_count`. -/
  | storeLastCount (v : Nat)
  /-- Write of `EVTSVT_O_CPUIRQ16SEL`. -/
  | writeIrq16Sel (v : Nat)
  /-- Write of `RTC_O_CH0CC8U`. -/
  | writeRtcCh0cc (v : Nat)
  /-- Write of `RTC_O_ARMCLR`. -/
  | writeRtcArmClr (v : Nat)
  /-- Write of `RTC_O_ICLR`. -/
  | writeRtcIclr (v : Nat)
  /-- Write of `SYSTIM_O_CH0CC + 4 * i`. -/
  | writeChcc (i v : Nat)
  /-- Write of `SYSTIM_O_IMASK`. -/
  | writeImask (v : Nat)
  /-- Write of `SYSTIM_O_IMSET`. -/
  | writeImset (v : Nat)
  /-- Write of `SYSTIM_O_ICLR`. -/
  | writeSystimIclr (v : Nat)
  /-- Write of `SYSTIM_O_CH0CFG`. -/
  | writeCh0cfg (v : Nat)
  /-- Write of `SYSTIM_O_EMU`. -/
  | writeEmu (v : Nat)
  /-- `IRQ_CONNECT(CPUIRQ16_IRQn, priority, systim_isr, 0, 0)`. -/
  | irqConnect (priority : Nat)
  /-- `irq_enable(CPUIRQ16_IRQn)`. -/
  | irqEnable
  deriving DecidableEq, Repr

/-- The registers the two files read and write. -/
structure HW where
  /-- `SYSTIM_O_TIME1U`, the 1us counter reading. -/
  time1u : Nat
  /-- `SYSTIM_O_CH0CC + 4 * i`, the compare value of channel `i`. -/
  chcc : Nat → Nat
  /-- `SYSTIM_O_IMASK`, the interrupt mask (bit `i` set: channel `i` active). -/
  imask : Nat
  /-- `SYSTIM_O_CH0CFG`. -/
  ch0cfg : Nat
  /-- `SYSTIM_O_EMU`. -/
  emu : Nat
  /-- The values successive reads of `SYSTIM_O_STATUS` return. -/
  statusReads : List Nat
  /-- `EVTSVT_O_CPUIRQ16SEL`, the publisher routed to the shared line. -/
  irq16sel : Nat
  /-- `RTC_O_TIME8U`, the 8us counter reading. -/
  rtcTime8u : Nat
  /-- `RTC_O_CH0CC8U`, the RTC compare value. -/
  rtcCh0cc : Nat
  /-- `CKMD_O_LFCLKSEL`. -/
  lfclksel : Nat
  /-- `CKMD_O_LFCLKSTAT`. -/
  lfclkstat : Nat

/-- Registers, the globals of the two files, the constraint mask of the power
module and the trace of effects. -/
structure Sys where
  hw : HW
  /-- The global `last_systim_count` of the timer driver. -/
  last_systim_count : Nat
  /-- The global `sysTimerTimeouts` of the power controller. -/
  sysTimerTimeouts : Nat → Nat
  /-- The value `Power_getConstraintMask()` returns. -/
  constraintMask : Nat
  /-- Effects performed so far, oldest first. -/
  trace : List Event

/-- Append an effect to the trace. -/
def Sys.emit (s : Sys) (e : Event) : Sys := { s with trace := s.trace ++ [e] }

/-- `HWREG(SYSTIM_BASE + SYSTIM_O_CH0CC + 4 * i) = v`. -/
def Sys.writeChcc (s : Sys) (i v : Nat) : Sys :=
  { s with hw := { s.hw with chcc := Function.update s.hw.chcc i v },
           trace := s.trace ++ [Event.writeChcc i v] }

/-- `HWREG(EVTSVT_BASE + EVTSVT_O_CPUIRQ16SEL) = v`. -/
def Sys.writeIrq16Sel (s : Sys) (v : Nat) : Sys :=
  { s with hw := { s.hw with irq16sel := v },
           trace := s.trace ++ [Event.writeIrq16Sel v] }

/-! ## The tick source: `cc23x0_systim_timer.c` -/

/-- `sys_clock_elapsed_ticks(current, last)` with tick period `T`. -/
def sys_clock_elapsed_ticks (T current last : Nat) : Nat :=
  if current ≥ last then
    sub32 (current / T) (last / T)
  else
    u32 (sub32 0xFFFFFFFF last / T + current / T)

/-- `sys_clock_set_timeout(ticks, idle)`; `idle` is unused (`ARG_UNUSED`). -/
def sys_clock_set_timeout (k : Consts) (ticks : Int) (_idle : Bool) (s : Sys) : Sys :=
  if ticks ≠ k.K_TICKS_FOREVER then
    let nowTick := s.hw.time1u
    let nowTick := sub32 nowTick (nowTick % k.TICK_PERIOD_SYS)
    let timeout := u32 (toU32 ticks * k.TICK_PERIOD_SYS)
    let timeout :=
      if timeout > SYSTIM_TIMEOUT_MAX then
        sub32 SYSTIM_TIMEOUT_MAX (SYSTIM_TIMEOUT_MAX % k.TICK_PERIOD_SYS)
      else timeout
    s.writeChcc 0 (u32 (nowTick + timeout))
  else s

/-- `SYSTIM_ISR_PRIORITY`. -/
def SYSTIM_ISR_PRIORITY : Nat := 3

/-- Conversion of a `uint32_t` to `int32_t` (two's complement), as in
`int32_t elapsed_ticks = sys_clock_elapsed_ticks(...)` and in the argument of
`sys_clock_announce(int32_t ticks)`. -/
def toI32 (n : Nat) : Int :=
  if n % 2 ^ 32 < 2 ^ 31 then ((n % 2 ^ 32 : Nat) : Int)
  else ((n % 2 ^ 32 : Nat) : Int) - 2 ^ 32

/-- `last_systim_count = v`. -/
def Sys.storeLastCount (s : Sys) (v : Nat) : Sys :=
  { s with last_systim_count := v, trace := s.trace ++ [Event.storeLastCount v] }

/-- `HWREG(SYSTIM_BASE + SYSTIM_O_CH0CFG) = v`. -/
def Sys.writeCh0cfg (s : Sys) (v : Nat) : Sys :=
  { s with hw := { s.hw with ch0cfg := v },
           trace := s.trace ++ [Event.writeCh0cfg v] }

/-- `HWREG(SYSTIM_BASE + SYSTIM_O_EMU) = v`. -/
def Sys.writeEmu (s : Sys) (v : Nat) : Sys :=
  { s with hw := { s.hw with emu := v },
           trace := s.trace ++ [Event.writeEmu v] }

/-- `HWREG(SYSTIM_BASE + SYSTIM_O_IMSET) = v`.  `IMSET` is the set register of
`IMASK` ("Set IMASK for channel 0"): the bits of `v` become set in the mask. -/
def Sys.writeImset (s : Sys) (v : Nat) : Sys :=
  { s with hw := { s.hw with imask := s.hw.imask ||| v },
           trace := s.trace ++ [Event.writeImset v] }

/-- `sys_clock_driver_init()`: the state after the call and the value returned. -/
def sys_clock_driver_init (k : Consts) (s : Sys) : Sys × Int :=
  let nowTick := s.hw.time1u
  let s := s.storeLastCount nowTick
  let s := s.emit (Event.writeSystimIclr k.SYSTIM_ICLR_EV0_CLR)
  let s := s.writeCh0cfg 0
  let s := s.writeEmu k.SYSTIM_EMU_HALT_STOP
  let s := s.writeIrq16Sel k.EVTSVT_CPUIRQ16SEL_PUBID_SYSTIM0
  let s := s.writeImset k.SYSTIM_IMSET_EV0_SET
  let s := s.writeChcc 0 (u32 (nowTick + SYSTIM_TIMEOUT_MAX))
  let s := s.emit (Event.irqConnect SYSTIM_ISR_PRIORITY)
  let s := s.emit Event.irqEnable
  (s, 0)

/-- `sys_clock_elapsed()`: the state after the call and the `uint32_t` returned. -/
def sys_clock_elapsed (k : Consts) (s : Sys) : Sys × Nat :=
  let current_systim_count := s.hw.time1u
  let elapsed_ticks : Int :=
    toI32 (sys_clock_elapsed_ticks k.TICK_PERIOD_SYS current_systim_count s.last_systim_count)
  (s, toU32 elapsed_ticks)

/-- `HWREG(RTC_BASE + RTC_O_CH0CC8U) = v`. -/
def Sys.writeRtcCh0cc (s : Sys) (v : Nat) : Sys :=
  { s with hw := { s.hw with rtcCh0cc := v },
           trace := s.trace ++ [Event.writeRtcCh0cc v] }

/-- `HWREG(SYSTIM_BASE + SYSTIM_O_IMASK) = v`. -/
def Sys.writeImask (s : Sys) (v : Nat) : Sys :=
  { s with hw := { s.hw with imask := v },
           trace := s.trace ++ [Event.writeImask v] }

/-- How a run of `enterStandby` ends: it returns, or it stays forever in the
loop that polls `SYSTIM_O_STATUS`.  Both carry the state reached. -/
inductive Outcome where
  | returned (s : Sys)
  | stalled (s : Sys)

/-- The state reached at the end of a run. -/
def Outcome.state : Outcome → Sys
  | Outcome.returned s => s
  | Outcome.stalled s => s

/-- Whether channel `i` is active in the mask: `sysTimerIMASK & (1 << i)`. -/
def channelActive (imask i : Nat) : Bool := imask &&& (1 <<< i) != 0

/-- Lines 139-160 of `enterStandby`: the pair `(standbyAllowed, idleAllowed)`
after the constraint mask and the LFOSC filter have been looked at. -/
def checkConstraints (k : Consts) (s : Sys) : Bool × Bool :=
  let constraints := s.constraintMask
  let standbyAllowed := (constraints &&& (1 <<< k.PowerLPF3_DISALLOW_STANDBY)) == 0
  let idleAllowed := (constraints &&& (1 <<< k.PowerLPF3_DISALLOW_IDLE)) == 0
  if (s.hw.lfclksel &&& k.CKMD_LFCLKSEL_MAIN_M) == k.CKMD_LFCLKSEL_MAIN_LFOSC then
    if ((s.hw.lfclkstat &&& k.CKMD_LFCLKSTAT_FLTSETTLED_M) == 0) && standbyAllowed then
      (false, false)
    else (standbyAllowed, idleAllowed)
  else (standbyAllowed, idleAllowed)

/-- The body of the loop of lines 191-235 for channel `i`.  The loop state is
the pair `(sysTimerTimeouts, sysTimerDelta)`. -/
def scanChannel (hw : HW) (imask curr : Nat) (st : (Nat → Nat) × Nat) (i : Nat) :
    (Nat → Nat) × Nat :=
  if channelActive imask i then
    let timeouts := Function.update st.1 i (hw.chcc i)
    let loopDelta := timeouts i
    let loopDelta := sub32 loopDelta (u32 (curr <<< sysTimerResolutionShift i))
    let loopDelta := if loopDelta > MAX_SYSTIMER_DELTA then 0 else loopDelta
    let loopDelta := loopDelta >>> sysTimerResolutionShift i
    (timeouts, Math_MIN st.2 loopDelta)
  else st

/-- Lines 175-242 of `enterStandby`: from the mask read at line 169, the new
contents of `sysTimerTimeouts` and the value of `sysTimerDelta`. -/
def scanChannels (hw : HW) (imask : Nat) (timeouts : Nat → Nat) : (Nat → Nat) × Nat :=
  if imask ≠ 0 then
    (List.range SYSTIMER_CHANNEL_COUNT).foldl (scanChannel hw imask hw.time1u)
      (timeouts, 0xFFFFFFFF)
  else (timeouts, MAX_SYSTIMER_DELTA)

/-- The soonest deadline: `sysTimerDelta` as it stands at line 245. -/
def soonestDeadline (s : Sys) : Nat := (scanChannels s.hw s.hw.imask s.sysTimerTimeouts).2

/-- Lines 257-280: route the shared line to the RTC, clear the pending
interrupt and arm the RTC compare channel. -/
def standbyEntry (k : Consts) (sysTimerDelta : Nat) (s : Sys) : Sys :=
  let s := s.writeIrq16Sel k.EVTSVT_CPUIRQ16SEL_PUBID_AON_RTC_COMB
  let s := s.emit Event.clearInterrupt
  let sysTimerDelta := sub32 sysTimerDelta k.PowerCC23X0_WAKEDELAYSTANDBY
  let sysTimerDelta := sysTimerDelta / RTC_TO_SYSTIMER_TICKS
  let ticksBefore := s.hw.rtcTime8u
  s.writeRtcCh0cc (u32 (ticksBefore + sysTimerDelta))

/-- Line 283, `Power_sleep(PowerLPF3_STANDBY)`: the registers after wake-up
are whatever the sleep leaves, `sleep hw`. -/
def powerSleepStandby (k : Consts) (sleep : HW → HW) (s : Sys) : Sys :=
  { s with hw := sleep s.hw, trace := s.trace ++ [Event.powerSleep k.PowerLPF3_STANDBY] }

/-- Lines 292-308: disarm and clear the RTC event, synchronise, clear the
pending interrupt and route the shared line back to the SysTimer. -/
def standbyWakeRtc (k : Consts) (s : Sys) : Sys :=
  let s := s.emit (Event.writeRtcArmClr k.RTC_ARMCLR_CH0_CLR)
  let s := s.emit (Event.writeRtcIclr k.RTC_ICLR_EV0_CLR)
  let s := s.emit Event.ullSync
  let s := s.emit Event.clearInterrupt
  s.writeIrq16Sel k.EVTSVT_CPUIRQ16SEL_PUBID_SYSTIM0

/-- The loop of line 318: read `SYSTIM_O_STATUS` until it is
`SYSTIM_STATUS_VAL_RUN`.  Returns the readings left, or `none` when no reading
is `SYSTIM_STATUS_VAL_RUN` (the loop never ends). -/
def waitSystimRun (run : Nat) : List Nat → Option (List Nat)
  | [] => none
  | v :: rest => if v ≠ run then waitSystimRun run rest else some rest

/-- The body of the loop of lines 322-329 for channel `i`. -/
def restoreChannel (imask : Nat) (s : Sys) (i : Nat) : Sys :=
  if channelActive imask i then s.writeChcc i (s.sysTimerTimeouts i) else s

/-- Lines 321-343: restore the compare values and the mask, re-configure the
LRFD clocks and notify the clients. -/
def standbyRestore (k : Consts) (sysTimerIMASK : Nat) (s : Sys) : Sys :=
  let s := (List.range SYSTIMER_CHANNEL_COUNT).foldl (restoreChannel sysTimerIMASK) s
  let s := s.writeImask sysTimerIMASK
  let s := s.emit Event.lrfdApplyClockDependencies
  s.emit (Event.powerNotify k.PowerLPF3_AWAKE_STANDBY)

/-- `enterStandby()`. -/
def enterStandby (k : Consts) (sleep : HW → HW) (s : Sys) : Outcome :=
  let standbyAllowed := (checkConstraints k s).1
  let idleAllowed := (checkConstraints k s).2
  if standbyAllowed then
    let sysTimerIMASK := s.hw.imask
    let scan := scanChannels s.hw sysTimerIMASK s.sysTimerTimeouts
    let s := { s with sysTimerTimeouts := scan.1 }
    let sysTimerDelta := scan.2
    if sysTimerDelta > k.PowerCC23X0_TOTALTIMESTANDBY then
      let s := standbyEntry k sysTimerDelta s
      let s := powerSleepStandby k sleep s
      let s := standbyWakeRtc k s
      match waitSystimRun k.SYSTIM_STATUS_VAL_RUN s.hw.statusReads with
      | none => Outcome.stalled { s with hw := { s.hw with statusReads := [] } }
      | some rest =>
        let s := { s with hw := { s.hw with statusReads := rest } }
        Outcome.returned (standbyRestore k sysTimerIMASK s)
    else if idleAllowed then
      Outcome.returned (s.emit Event.wfi)
    else Outcome.returned s
  else if idleAllowed then
    Outcome.returned (s.emit Event.wfi)
  else Outcome.returned s

/-- Modelled from the spec: `enum pm_state` of Zephyr's `pm/state.h` is not part
of the sources; the spec names the states Active, Idle, Standby and Off, the
other constructors are the remaining states of the enumeration, which
`pm_state_set` sends to its `default` case. -/
inductive pm_state where
  | PM_STATE_ACTIVE
  | PM_STATE_RUNTIME_IDLE
  | PM_STATE_SUSPEND_TO_IDLE
  | PM_STATE_STANDBY
  | PM_STATE_SUSPEND_TO_RAM
  | PM_STATE_SUSPEND_TO_DISK
  | PM_STATE_SOFT_OFF
  deriving DecidableEq, Repr

/-- `pm_state_set(state, substate_id)`; `substate_id` is unused (`ARG_UNUSED`). -/
def pm_state_set (k : Consts) (sleep : HW → HW) (state : pm_state) (_substate_id : Nat)
    (s : Sys) : Outcome :=
  match state with
  | pm_state.PM_STATE_RUNTIME_IDLE => Outcome.returned (s.emit Event.wfi)
  | pm_state.PM_STATE_STANDBY => enterStandby k sleep s
  | pm_state.PM_STATE_SOFT_OFF => Outcome.returned (s.emit Event.powerShutdown)
  | _ => Outcome.returned s

/-- Lines 202-230 for channel `i`: the delta to the compare value, clamped and
converted to 1us resolution, as the loop computes it from `CHnCC`. -/
def channelDelta (hw : HW) (curr i : Nat) : Nat :=
  (if sub32 (hw.chcc i) (u32 (curr <<< sysTimerResolutionShift i)) > MAX_SYSTIMER_DELTA then 0
   else sub32 (hw.chcc i) (u32 (curr <<< sysTimerResolutionShift i)))
    >>> sysTimerResolutionShift i

/-- The sleep instructions among the effects: `__WFI()` and `Power_sleep`. -/
def Event.isSleep : Event → Bool
  | Event.wfi => true
  | Event.powerSleep _ => true
  | _ => false

/-- The state of the standby path just before `Power_sleep` (line 283). -/
def beforeSleep (k : Consts) (s : Sys) : Sys :=
  standbyEntry k (soonestDeadline s)
    { s with sysTimerTimeouts := (scanChannels s.hw s.hw.imask s.sysTimerTimeouts).1 }

/-- The state of the standby path when the poll loop of line 318 starts. -/
def afterWake (k : Consts) (sleep : HW → HW) (s : Sys) : Sys :=
  standbyWakeRtc k (powerSleepStandby k sleep (beforeSleep k s))

/-- The effects of the wake-up half of the standby path after the poll loop
(lines 321-343), for the mask `imask` and the compare values `cc` saved before
the sleep. -/
def restoreEvents (k : Consts) (imask : Nat) (cc : Nat → Nat) : List Event :=
  ((List.range SYSTIMER_CHANNEL_COUNT).filter (fun i => channelActive imask i)).map
      (fun i => Event.writeChcc i (cc i))
    ++ [Event.writeImask imask, Event.lrfdApplyClockDependencies,
        Event.powerNotify k.PowerLPF3_AWAKE_STANDBY]

/-! ## The deadline as the specification words it -/

/-- The clamp of the specification: a value greater than `0xFFBFFFFF` becomes 0,
any other value is unchanged. -/
def specClamp (x : Nat) : Nat := if x > 0xFFBFFFFF then 0 else x

/-- The resolution shifts of the specification, `s = [0, 0, 2, 2, 2]`. -/
def specShift (i : Nat) : Nat := [0, 0, 2, 2, 2].getD i 0

/-- The deadline of channel `i` in the words of the specification:
`clamp((cc_i - (now << s_i)) mod 2^32) >> s_i`, over the integers. -/
def specChannelDeadline (hw : HW) (i : Nat) : Nat :=
  specClamp ((((hw.chcc i : Int) - ((hw.time1u <<< specShift i : Nat) : Int)) % 2 ^ 32).toNat)
    >>> specShift i

/-! ## A representative configuration, for examples -/

/-- A representative assignment of the constants: a 10 kHz kernel tick
(`TICK_PERIOD_SYS = 100`), standby latencies of 500us and 185us, constraint
bits 0 and 1, and distinct register constants. -/
def exampleConsts : Consts where
  TICK_PERIOD_SYS := 100
  K_TICKS_FOREVER := -1
  PowerCC23X0_TOTALTIMESTANDBY := 500
  PowerCC23X0_WAKEDELAYSTANDBY := 185
  PowerLPF3_DISALLOW_STANDBY := 0
  PowerLPF3_DISALLOW_IDLE := 1
  PowerLPF3_STANDBY := 1
  PowerLPF3_AWAKE_STANDBY := 2
  CKMD_LFCLKSEL_MAIN_M := 3
  CKMD_LFCLKSEL_MAIN_LFOSC := 1
  CKMD_LFCLKSTAT_FLTSETTLED_M := 0x2000000
  EVTSVT_CPUIRQ16SEL_PUBID_AON_RTC_COMB := 54
  EVTSVT_CPUIRQ16SEL_PUBID_SYSTIM0 := 29
  SYSTIM_STATUS_VAL_RUN := 1
  SYSTIM_ICLR_EV0_CLR := 1
  SYSTIM_IMSET_EV0_SET := 1
  SYSTIM_EMU_HALT_STOP := 1
  RTC_ARMCLR_CH0_CLR := 1
  RTC_ICLR_EV0_CLR := 1

/-- Registers all zero, no status reading pending. -/
def HW.zero : HW where
  time1u := 0
  chcc := fun _ => 0
  imask := 0
  ch0cfg := 0
  emu := 0
  statusReads := []
  irq16sel := 0
  rtcTime8u := 0
  rtcCh0cc := 0
  lfclksel := 0
  lfclkstat := 0

/-- The state with the given registers, zeroed globals, no constraint set and
an empty trace. -/
def Sys.ofHW (hw : HW) : Sys where
  hw := hw
  last_systim_count := 0
  sysTimerTimeouts := fun _ => 0
  constraintMask := 0
  trace := []

/-- A standby sleep that wipes the SysTimer compare registers and mask and
after which the first status reading is not yet `RUN`. -/
def wipingSleep (hw : HW) : HW :=
  { hw with chcc := fun _ => 0, imask := 0, statusReads := [0, 1],
            time1u := u32 (hw.time1u + 1000), rtcTime8u := u32 (hw.rtcTime8u + 125) }

/-- Counter at 0, channel 0 (1us) armed at 500000 and channel 2 (250ns) armed
at 1200000, RTC reading 1000, no constraint set, clock source not LFOSC. -/
def exampleTwoChannels : Sys :=
  Sys.ofHW { HW.zero with
    imask := 5, chcc := fun i => if i = 0 then 500000 else if i = 2 then 1200000 else 0,
    rtcTime8u := 1000 }

/-- Counter at 0, only channel 0 armed, at 600: a deadline 600us ahead. -/
def exampleNearDeadline : Sys :=
  Sys.ofHW { HW.zero with imask := 1, chcc := fun i => if i = 0 then 600 else 0 }

/-- Clock source other than LFOSC (`LFCLKSEL.MAIN = 3`), filter status bit
clear, no constraint set, no channel active. -/
def exampleOtherSourceUnsettled : Sys :=
  Sys.ofHW { HW.zero with lfclksel := 3, lfclkstat := 0 }

/-- Clock source LFOSC (`LFCLKSEL.MAIN = 1`), filter status bit clear, no
constraint set, no channel active. -/
def exampleLfoscUnsettled : Sys :=
  Sys.ofHW { HW.zero with lfclksel := 1, lfclkstat := 0 }

/-- No channel armed, only bit 5 of the interrupt mask set (a bit that belongs
to none of the channels 0..4), no constraint set, clock source not LFOSC. -/
def exampleNoChannelMask : Sys :=
  Sys.ofHW { HW.zero with imask := 0x20, rtcTime8u := 1000 }

/-- Counter at 123456, last announcement at 123000, channel 0 armed at 124000. -/
def exampleTicking : Sys :=
  { Sys.ofHW { HW.zero with
      time1u := 123456, imask := 1, chcc := fun i => if i = 0 then 124000 else 0 } with
    last_systim_count := 123000 }

/-- Counter at 1000, channel 0 armed at 900 (100us in the past) and channel 1
armed at 500000, no constraint set, clock source not LFOSC. -/
def examplePastDeadline : Sys :=
  Sys.ofHW { HW.zero with
    time1u := 1000, imask := 3,
    chcc := fun i => if i = 0 then 900 else if i = 1 then 500000 else 0 }

/-- `HCI_TYPE_INVALID`. -/
def HCI_TYPE_INVALID : Nat := 0xFF

/-- `SUCCESS` of `comdef.h`. -/
def SUCCESS : Int := 0

/-- `FAILURE` of `comdef.h`. -/
def FAILURE : Int := 1

/-- `EINVAL` of `errno.h`, which is not part of the sources. -/
def EINVAL : Int := 22

/-- `BT_HCI_SET_BD_ADDR`. -/
def BT_HCI_SET_BD_ADDR : Nat := 0xfc0c

/-- H4 packet indicator of a command, index 1 of `translation_array_in`
("BT_HCI_H4_CMD"). -/
def BT_HCI_H4_CMD : Nat := 1

/-- H4 packet indicator of ACL data, index 2 of `translation_array_in`
("BT_HCI_H4_ACL"). -/
def BT_HCI_H4_ACL : Nat := 2

/-- Buffer type of a command, index 0 of `translation_array_out` ("BT_BUF_CMD"). -/
def BT_BUF_CMD : Nat := 0

/-- Buffer type of an event, index 1 of `translation_array_out` ("BT_BUF_EVT"). -/
def BT_BUF_EVT : Nat := 1

/-- Buffer type of outgoing ACL data, index 2 of `translation_array_out`
("BT_BUF_ACL_OUT"). -/
def BT_BUF_ACL_OUT : Nat := 2

/-- Buffer type of incoming ACL data, the value after `BT_BUF_ACL_OUT` in
`enum bt_buf_type`, which is not part of the sources. -/
def BT_BUF_ACL_IN : Nat := 3

/-- `translation_array_in[6]`, indexed by the H4 packet indicator. -/
def translation_array_in : List Nat :=
  [HCI_TYPE_INVALID, HCI_TYPE_INVALID, BT_BUF_ACL_IN, HCI_TYPE_INVALID, BT_BUF_EVT,
   HCI_TYPE_INVALID]

/-- `translation_array_out[6]`, indexed by the buffer type. -/
def translation_array_out : List Nat :=
  [BT_HCI_H4_CMD, HCI_TYPE_INVALID, BT_HCI_H4_ACL, HCI_TYPE_INVALID, HCI_TYPE_INVALID,
   HCI_TYPE_INVALID]

/-- A `struct net_buf`: the buffer type kept in its user data and its payload
bytes `data[0 .. len-1]`. -/
structure NetBuf where
  type : Nat
  data : List Nat
  deriving DecidableEq, Repr

/-- Calls the driver makes into the controller stack, the host and the buffer
pool, in program order. -/
inductive HciEvent where
  /-- `ICall_registerApp(...)`. -/
  | icallRegisterApp
  /-- `HCI_HostToController(pHciPkt, pktLen)` with the bytes handed over. -/
  | hostToController (pkt : List Nat)
  /-- `net_buf_unref(buf)`. -/
  | netBufUnref
  deriving DecidableEq, Repr

/-- Why a run of the driver has no defined result. -/
inductive HciFault where
  /-- A table was read outside its six entries. -/
  | outOfBounds
  /-- The nesting bound of the model was reached. -/
  | nestingBound
  deriving DecidableEq, Repr

/-- The globals of the driver and the trace of its calls. -/
structure HciState where
  /-- The static `first_entry` of `hci_driver_send`. -/
  first_entry : Bool
  /-- The global `set_bd_addr`. -/
  set_bd_addr : Bool
  /-- The global `public_addr`, six bytes. -/
  public_addr : List Nat
  /-- Calls made so far, oldest first. -/
  trace : List HciEvent
  deriving DecidableEq, Repr

/-- What the driver's surroundings decide: whether `CONFIG_HCI_HOST` is defined,
the status `HCI_HostToController` returns for a packet, the payload of the buffer
`bt_hci_cmd_create(opcode, param_len)` returns (`none` for `NULL`), and whether
`bt_buf_get_rx` has a buffer. -/
structure HciEnv where
  CONFIG_HCI_HOST : Bool
  hostToControllerStatus : List Nat → Int
  btHciCmdCreate : Nat → Nat → Option (List Nat)
  btBufGetRx : Bool

/-- `bt_ctlr_set_public_addr(addr)`. -/
def bt_ctlr_set_public_addr (addr : List Nat) (st : HciState) : HciState :=
  { st with public_addr := addr.take 6, set_bd_addr := true }

/-- `hci_driver_add_pkt_type(buf)`: the status and the buffer afterwards;
`none` when `translation_array_out` is read outside its entries. -/
def hci_driver_add_pkt_type (buf : NetBuf) : Option (Int × NetBuf) :=
  match translation_array_out.get? buf.type with
  | none => none
  | some h4_type =>
    if h4_type = HCI_TYPE_INVALID then some (FAILURE, buf)
    else some (SUCCESS, { buf with data := h4_type :: buf.data })

/-- Lines 198-220 of `hci_driver_send`, after the first-entry block. -/
def hci_driver_send_body (env : HciEnv) (st : HciState) (buf : NetBuf) :
    Except HciFault (HciState × Int) :=
  if buf.data.length = 0 then Except.ok (st, -EINVAL)
  else
    match hci_driver_add_pkt_type buf with
    | none => Except.error HciFault.outOfBounds
    | some (err, buf) =>
      if SUCCESS ≠ err then
        Except.ok ({ st with trace := st.trace ++ [HciEvent.netBufUnref] }, -EINVAL)
      else
        let err := env.hostToControllerStatus buf.data
        let st := { st with trace := st.trace ++ [HciEvent.hostToController buf.data] }
        if SUCCESS ≠ err then
          Except.ok ({ st with trace := st.trace ++ [HciEvent.netBufUnref] }, -EINVAL)
        else
          Except.ok ({ st with trace := st.trace ++ [HciEvent.netBufUnref] }, err)

/-- `vs_set_bd_addr()`, with `send` standing for the call of `hci_driver_send`
at line 333. -/
def vs_set_bd_addr (send : HciState → NetBuf → Except HciFault (HciState × Int))
    (env : HciEnv) (st : HciState) : Except HciFault HciState :=
  if env.CONFIG_HCI_HOST then
    if st.set_bd_addr then
      match env.btHciCmdCreate BT_HCI_SET_BD_ADDR 6 with
      | none => Except.ok st
      | some payload =>
        let buf : NetBuf := { type := BT_BUF_CMD, data := payload ++ st.public_addr }
        match hci_driver_add_pkt_type buf with
        | none => Except.error HciFault.outOfBounds
        | some (_, buf) =>
          match send st buf with
          | Except.error f => Except.error f
          | Except.ok (st, _) => Except.ok st
    else Except.ok st
  else Except.ok st

/-- `hci_driver_send(buf)` with at most `depth` nested activations. -/
def hci_driver_send_depth (env : HciEnv) :
    Nat → HciState → NetBuf → Except HciFault (HciState × Int)
  | 0, _, _ => Except.error HciFault.nestingBound
  | depth + 1, st, buf =>
    if st.first_entry then
      let st := { st with trace := st.trace ++ [HciEvent.icallRegisterApp] }
      let st := { st with first_entry := false }
      match vs_set_bd_addr (hci_driver_send_depth env depth) env st with
      | Except.error f => Except.error f
      | Except.ok st => hci_driver_send_body env st buf
    else hci_driver_send_body env st buf

/-- `hci_driver_send(buf)`: two activations are all a call can nest. -/
def hci_driver_send (env : HciEnv) (st : HciState) (buf : NetBuf) :
    Except HciFault (HciState × Int) :=
  hci_driver_send_depth env 2 st buf

/-- What `hci_evt_create` returns: a buffer, `NULL`, or nothing defined when
`translation_array_in` is read outside its entries. -/
inductive EvtResult where
  | buf (b : NetBuf)
  | null
  | outOfBounds
  deriving DecidableEq, Repr

/-- `hci_evt_create(pHciPkt, pktLen)` on a packet of at least one byte. -/
def hci_evt_create (env : HciEnv) (pkt : List Nat) : EvtResult :=
  match pkt with
  | [] => EvtResult.outOfBounds
  | pktType :: rest =>
    match translation_array_in.get? pktType with
    | none => EvtResult.outOfBounds
    | some buf_type =>
      if buf_type = HCI_TYPE_INVALID then EvtResult.null
      else if env.btBufGetRx then EvtResult.buf { type := buf_type, data := rest }
      else EvtResult.null

/-- Surroundings in which `CONFIG_HCI_HOST` is defined, the controller accepts
every packet, `bt_hci_cmd_create` returns the three-byte command header (opcode,
little endian, and parameter length) and a receive buffer is available. -/
def exampleHciEnv : HciEnv where
  CONFIG_HCI_HOST := true
  hostToControllerStatus := fun _ => 0
  btHciCmdCreate := fun opcode len => some [opcode % 256, opcode / 256, len]
  btBufGetRx := true

/-- The driver before its first `hci_driver_send`. -/
def exampleHciInit : HciState where
  first_entry := true
  set_bd_addr := false
  public_addr := [0, 0, 0, 0, 0, 0]
  trace := []

/-- An HCI reset command buffer: opcode `0x0c03`, no parameter. -/
def exampleResetCmd : NetBuf where
  type := BT_BUF_CMD
  data := [0x03, 0x0c, 0x00]

/-! ## Arithmetic lemmas -/

theorem two_pow_32 : (2 : Nat) ^ 32 = 4294967296 := by norm_num

theorem u32_lt (n : Nat) : u32 n < 4294967296 := by
  unfold u32; omega

theorem u32_of_lt {n : Nat} (h : n < 4294967296) : u32 n = n := by
  unfold u32; omega

theorem sub32_lt (a b : Nat) : sub32 a b < 4294967296 := by
  unfold sub32; omega

theorem sub32_of_le {a b : Nat} (ha : a < 4294967296) (hb : b ≤ a) : sub32 a b = a - b := by
  unfold sub32; omega

theorem sub32_self (a : Nat) : sub32 a a = 0 := by
  unfold sub32; omega

/-- Adding a 32-bit offset and subtracting the base again gives the offset. -/
theorem sub32_u32_add {a t : Nat} (ha : a < 4294967296) (ht : t < 4294967296) :
    sub32 (u32 (a + t)) a = t := by
  unfold sub32 u32; omega

/-! ## The tick source -/

theorem elapsed_ticks_of_le {T current last : Nat} (hc : current < 4294967296)
    (hle : last ≤ current) :
    sys_clock_elapsed_ticks T current last = current / T - last / T := by
  have h1 : current / T < 4294967296 := lt_of_le_of_lt (Nat.div_le_self _ _) hc
  have h2 : last / T ≤ current / T := Nat.div_le_div_right hle
  unfold sys_clock_elapsed_ticks
  rw [if_pos hle, sub32_of_le h1 h2]

/-- The number of multiples of `T` in the half-open interval `(last, current]`. -/
theorem card_multiples_Ioc (T last current : Nat) (hle : last ≤ current) :
    ((Finset.Ioc last current).filter (fun m => T ∣ m)).card = current / T - last / T := by
  have hsplit : Finset.Ioc 0 current = Finset.Ioc 0 last ∪ Finset.Ioc last current :=
    (Finset.Ioc_union_Ioc_eq_Ioc (Nat.zero_le last) hle).symm
  have hdisj : Disjoint ((Finset.Ioc 0 last).filter (fun m => T ∣ m))
      ((Finset.Ioc last current).filter (fun m => T ∣ m)) := by
    apply Finset.disjoint_filter_filter
    rw [Finset.disjoint_left]
    intro a ha hb
    rw [Finset.mem_Ioc] at ha hb
    omega
  have hc := Nat.Ioc_filter_dvd_card_eq_div current T
  have hl := Nat.Ioc_filter_dvd_card_eq_div last T
  rw [hsplit, Finset.filter_union, Finset.card_union_of_disjoint hdisj, hl] at hc
  omega

/-- C1 (as stated, refuted): with tick period 10, `current = 10` and `last = 9`
the code returns 1 tick, while the forward distance `(10 - 9) mod 2^32 = 1`
divided by 10 is 0; and across the wrap, `last = 2^32 - 5` and `current = 5`,
the code returns 0 ticks, while the forward distance 10 divided by 10 is 1. -/
theorem elapsed_ticks_not_distance_div :
    sys_clock_elapsed_ticks 10 10 9 = 1 ∧ sub32 10 9 / 10 = 0
      ∧ sys_clock_elapsed_ticks 10 5 4294967291 = 0 ∧ sub32 5 4294967291 / 10 = 1 := by
  decide

/-- C1 (amended): for 32-bit `current ≥ last` and tick period `T ≥ 1`,
`sys_clock_elapsed_ticks` is the forward distance `d = (current - last) mod 2^32`
divided by `T`, plus one exactly when `last mod T + d mod T` reaches `T`; so it is
`d / T` whenever `last` is a multiple of `T`, and it is 0 when `current = last`. -/
theorem elapsed_ticks_no_wrap (T current last : Nat) (hT : 1 ≤ T)
    (hc : current < 2 ^ 32) (hle : last ≤ current) :
    sys_clock_elapsed_ticks T current last
        = sub32 current last / T
          + (if T ≤ last % T + sub32 current last % T then 1 else 0)
      ∧ (last % T = 0 → sys_clock_elapsed_ticks T current last = sub32 current last / T)
      ∧ sys_clock_elapsed_ticks T current current = 0 := by
  rw [two_pow_32] at hc
  have hd : sub32 current last = current - last := sub32_of_le hc hle
  have hsum : current = last + (current - last) := by omega
  have hdiv : current / T
      = last / T + (current - last) / T
        + (if T ≤ last % T + (current - last) % T then 1 else 0) := by
    conv_lhs => rw [hsum]
    exact Nat.add_div hT
  have hmain : sys_clock_elapsed_ticks T current last
      = sub32 current last / T
        + (if T ≤ last % T + sub32 current last % T then 1 else 0) := by
    rw [elapsed_ticks_of_le hc hle, hd, hdiv, Nat.add_assoc, Nat.add_sub_cancel_left]
  refine ⟨hmain, ?_, ?_⟩
  · intro h0
    have hlt : (current - last) % T < T := Nat.mod_lt _ hT
    rw [hmain, hd, h0, if_neg (by omega)]
    rfl
  · rw [elapsed_ticks_of_le hc (le_refl current)]
    omega

/-- C1 (amended), at the non-aligned input of the counterexample and tick period 10. -/
theorem elapsed_ticks_no_wrap_witness :
    sys_clock_elapsed_ticks 10 10 9
        = sub32 10 9 / 10 + (if 10 ≤ 9 % 10 + sub32 10 9 % 10 then 1 else 0)
      ∧ (9 % 10 = 0 → sys_clock_elapsed_ticks 10 10 9 = sub32 10 9 / 10)
      ∧ sys_clock_elapsed_ticks 10 10 10 = 0 :=
  elapsed_ticks_no_wrap 10 10 9 (by decide) (by decide) (by decide)

/-- C10: for 32-bit `current ≥ last` and tick period `T ≥ 1`,
`sys_clock_elapsed_ticks` is `current / T - last / T`, which is the number of
multiples of `T` in `(last, current]`; there are inputs at which it differs from
`(current - last) / T`. -/
theorem elapsed_ticks_counts_tick_boundaries (T current last : Nat) (_hT : 1 ≤ T)
    (hc : current < 2 ^ 32) (hle : last ≤ current) :
    sys_clock_elapsed_ticks T current last = current / T - last / T
      ∧ sys_clock_elapsed_ticks T current last
          = ((Finset.Ioc last current).filter (fun m => T ∣ m)).card
      ∧ (∃ T0 c0 l0 : Nat, 1 ≤ T0 ∧ c0 < 2 ^ 32 ∧ l0 ≤ c0
          ∧ sys_clock_elapsed_ticks T0 c0 l0 ≠ (c0 - l0) / T0) := by
  rw [two_pow_32] at hc
  refine ⟨elapsed_ticks_of_le hc hle, ?_, 10, 10, 9, by decide⟩
  rw [card_multiples_Ioc T last current hle]
  exact elapsed_ticks_of_le hc hle

/-- C10 at tick period 100, `last = 250`, `current = 1030`: eight tick boundaries
(300, 400, ..., 1000), while `(1030 - 250) / 100 = 7`. -/
theorem elapsed_ticks_counts_tick_boundaries_witness :
    sys_clock_elapsed_ticks 100 1030 250 = 1030 / 100 - 250 / 100
      ∧ sys_clock_elapsed_ticks 100 1030 250
          = ((Finset.Ioc 250 1030).filter (fun m => 100 ∣ m)).card
      ∧ (∃ T0 c0 l0 : Nat, 1 ≤ T0 ∧ c0 < 2 ^ 32 ∧ l0 ≤ c0
          ∧ sys_clock_elapsed_ticks T0 c0 l0 ≠ (c0 - l0) / T0) :=
  elapsed_ticks_counts_tick_boundaries 100 1030 250 (by decide) (by decide) (by decide)

/-- C3: for every counter reading `now` and every `ticks` other than
`K_TICKS_FOREVER`, `sys_clock_set_timeout` performs exactly one write, to the
compare register of channel 0, of a value at most `0xFFBFFFFF` units ahead of
`now - now mod T`. -/
theorem set_timeout_within_horizon (k : Consts) (ticks : Int) (idle : Bool) (s : Sys)
    (hnow : s.hw.time1u < 2 ^ 32) (hticks : ticks ≠ k.K_TICKS_FOREVER) :
    (sys_clock_set_timeout k ticks idle s).trace
        = s.trace ++ [Event.writeChcc 0 ((sys_clock_set_timeout k ticks idle s).hw.chcc 0)]
      ∧ ((sys_clock_set_timeout k ticks idle s).hw.chcc 0 + 2 ^ 32
          - (s.hw.time1u - s.hw.time1u % k.TICK_PERIOD_SYS)) % 2 ^ 32 ≤ 0xFFBFFFFF := by
  rw [two_pow_32] at hnow
  have hmod : s.hw.time1u % k.TICK_PERIOD_SYS ≤ s.hw.time1u := Nat.mod_le _ _
  have hmax : SYSTIM_TIMEOUT_MAX % k.TICK_PERIOD_SYS ≤ SYSTIM_TIMEOUT_MAX := Nat.mod_le _ _
  simp only [sys_clock_set_timeout, if_pos hticks, Sys.writeChcc, Function.update_same,
    true_and]
  rw [sub32_of_le hnow hmod]
  generalize s.hw.time1u % k.TICK_PERIOD_SYS = r at hmod
  have hto := u32_lt (toU32 ticks * k.TICK_PERIOD_SYS)
  generalize u32 (toU32 ticks * k.TICK_PERIOD_SYS) = t at hto
  unfold SYSTIM_TIMEOUT_MAX at hmax ⊢
  rw [sub32_of_le (by norm_num) hmax]
  generalize 4290772991 % k.TICK_PERIOD_SYS = m at hmax
  unfold u32
  split <;> omega

/-- C3 at a negative request: `ticks = -5` with tick period 100 and counter
reading 123456. -/
theorem set_timeout_within_horizon_witness :
    (sys_clock_set_timeout exampleConsts (-5) false
        (Sys.ofHW { HW.zero with time1u := 123456 })).trace
        = (Sys.ofHW { HW.zero with time1u := 123456 }).trace
          ++ [Event.writeChcc 0 ((sys_clock_set_timeout exampleConsts (-5) false
                (Sys.ofHW { HW.zero with time1u := 123456 })).hw.chcc 0)]
      ∧ ((sys_clock_set_timeout exampleConsts (-5) false
            (Sys.ofHW { HW.zero with time1u := 123456 })).hw.chcc 0 + 2 ^ 32
          - ((Sys.ofHW { HW.zero with time1u := 123456 }).hw.time1u
              - (Sys.ofHW { HW.zero with time1u := 123456 }).hw.time1u
                % exampleConsts.TICK_PERIOD_SYS)) % 2 ^ 32 ≤ 0xFFBFFFFF :=
  set_timeout_within_horizon exampleConsts (-5) false
    (Sys.ofHW { HW.zero with time1u := 123456 }) (by decide) (by decide)

/-! ## The power controller: the two loops -/

/-- The value the loop body of lines 202-230 computes for channel `i`. -/
theorem scanChannel_active {hw : HW} {imask curr i : Nat} (st : (Nat → Nat) × Nat)
    (h : channelActive imask i = true) :
    scanChannel hw imask curr st i
      = (Function.update st.1 i (hw.chcc i),
         Math_MIN st.2
           ((if sub32 (hw.chcc i) (u32 (curr <<< sysTimerResolutionShift i))
                  > MAX_SYSTIMER_DELTA then 0
             else sub32 (hw.chcc i) (u32 (curr <<< sysTimerResolutionShift i)))
             >>> sysTimerResolutionShift i)) := by
  simp [scanChannel, h]

theorem scanChannel_inactive {hw : HW} {imask curr i : Nat} (st : (Nat → Nat) × Nat)
    (h : channelActive imask i = false) : scanChannel hw imask curr st i = st := by
  simp [scanChannel, h]

/-- The stash after the scan loop: active channels of the list hold their
compare value, the other entries are untouched. -/
theorem scanFold_fst (hw : HW) (imask curr : Nat) (l : List Nat) (st : (Nat → Nat) × Nat)
    (i : Nat) :
    (l.foldl (scanChannel hw imask curr) st).1 i
      = if i ∈ l ∧ channelActive imask i = true then hw.chcc i else st.1 i := by
  induction l generalizing st with
  | nil => simp
  | cons j l ih =>
    rw [List.foldl_cons, ih]
    by_cases hj : channelActive imask j = true
    · rw [scanChannel_active st hj]
      by_cases hij : i = j
      · subst hij
        simp [hj]
      · simp [hij, Function.update_noteq hij]
    · have hj2 : channelActive imask j = false := by simpa using hj
      rw [scanChannel_inactive st hj2]
      by_cases hij : i = j
      · subst hij
        simp [hj2]
      · simp [hij]

theorem scanChannel_snd (hw : HW) (imask curr i : Nat) (st : (Nat → Nat) × Nat) :
    (scanChannel hw imask curr st i).2
      = if channelActive imask i = true then Math_MIN st.2 (channelDelta hw curr i)
        else st.2 := by
  by_cases h : channelActive imask i = true
  · rw [scanChannel_active st h, if_pos h]
    rfl
  · have h2 : channelActive imask i = false := by simpa using h
    rw [scanChannel_inactive st h2, if_neg h]

theorem Math_MIN_eq_min (x y : Nat) : Math_MIN x y = min x y := by
  unfold Math_MIN
  split <;> omega

/-- The scan loop never raises `sysTimerDelta`. -/
theorem scanFold_snd_le_init (hw : HW) (imask curr : Nat) (l : List Nat)
    (st : (Nat → Nat) × Nat) :
    (l.foldl (scanChannel hw imask curr) st).2 ≤ st.2 := by
  induction l generalizing st with
  | nil => simp
  | cons j l ih =>
    rw [List.foldl_cons]
    refine le_trans (ih _) ?_
    rw [scanChannel_snd, Math_MIN_eq_min]
    split <;> omega

/-- After the scan loop `sysTimerDelta` is at most the delta of every active
channel of the list. -/
theorem scanFold_snd_le (hw : HW) (imask curr : Nat) (l : List Nat)
    (st : (Nat → Nat) × Nat) (i : Nat) (hi : i ∈ l) (ha : channelActive imask i = true) :
    (l.foldl (scanChannel hw imask curr) st).2 ≤ channelDelta hw curr i := by
  induction l generalizing st with
  | nil => simp at hi
  | cons j l ih =>
    rw [List.foldl_cons]
    rcases List.mem_cons.mp hi with hij | hil
    · subst hij
      refine le_trans (scanFold_snd_le_init hw imask curr l _) ?_
      rw [scanChannel_snd, if_pos ha, Math_MIN_eq_min]
      omega
    · exact ih _ hil

/-- After the scan loop `sysTimerDelta` is its initial value or the delta of an
active channel of the list. -/
theorem scanFold_snd_mem (hw : HW) (imask curr : Nat) (l : List Nat)
    (st : (Nat → Nat) × Nat) :
    (l.foldl (scanChannel hw imask curr) st).2 = st.2
      ∨ ∃ i, i ∈ l ∧ channelActive imask i = true
          ∧ (l.foldl (scanChannel hw imask curr) st).2 = channelDelta hw curr i := by
  induction l generalizing st with
  | nil => simp
  | cons j l ih =>
    rw [List.foldl_cons]
    rcases ih (scanChannel hw imask curr st j) with h | ⟨i, hi, ha, h⟩
    · rw [h, scanChannel_snd]
      by_cases hj : channelActive imask j = true
      · rw [if_pos hj, Math_MIN_eq_min]
        rcases Nat.le_total st.2 (channelDelta hw curr j) with hle | hle
        · left; omega
        · right
          exact ⟨j, List.mem_cons_self _ _, hj, by omega⟩
      · rw [if_neg hj]
        left; trivial
    · right
      exact ⟨i, List.mem_cons_of_mem _ hi, ha, h⟩

theorem channelDelta_le_max (hw : HW) (curr i : Nat) :
    channelDelta hw curr i ≤ MAX_SYSTIMER_DELTA := by
  unfold channelDelta
  rw [Nat.shiftRight_eq_div_pow]
  refine le_trans (Nat.div_le_self _ _) ?_
  split
  · exact Nat.zero_le _
  · omega

/-- The integer reading of a 32-bit difference. -/
theorem sub32_eq_emod (a b : Nat) :
    sub32 a b = (((a : Int) - (b : Int)) % 2 ^ 32).toNat := by
  unfold sub32
  omega

/-- The loop's delta is the deadline of the specification. -/
theorem channelDelta_eq_spec (hw : HW) (i : Nat) :
    channelDelta hw hw.time1u i = specChannelDeadline hw i := by
  unfold channelDelta specChannelDeadline specClamp specShift sysTimerResolutionShift
    MAX_SYSTIMER_DELTA
  have h : sub32 (hw.chcc i) (u32 (hw.time1u <<< [0, 0, 2, 2, 2].getD i 0))
      = (((hw.chcc i : Int) - ((hw.time1u <<< [0, 0, 2, 2, 2].getD i 0 : Nat) : Int))
          % 2 ^ 32).toNat := by
    rw [← sub32_eq_emod]
    unfold sub32 u32
    omega
  rw [h]

theorem soonestDeadline_le_u32_max (s : Sys) : soonestDeadline s ≤ 0xFFFFFFFF := by
  unfold soonestDeadline scanChannels
  split
  · exact scanFold_snd_le_init _ _ _ _ _
  · simp [MAX_SYSTIMER_DELTA]

/-- The restore loop leaves everything but the compare registers and the trace
alone. -/
theorem restoreFold_frame (imask : Nat) (l : List Nat) (s : Sys) :
    (l.foldl (restoreChannel imask) s).sysTimerTimeouts = s.sysTimerTimeouts
      ∧ (l.foldl (restoreChannel imask) s).last_systim_count = s.last_systim_count
      ∧ (l.foldl (restoreChannel imask) s).constraintMask = s.constraintMask
      ∧ (l.foldl (restoreChannel imask) s).hw
          = { s.hw with chcc := (l.foldl (restoreChannel imask) s).hw.chcc } := by
  induction l generalizing s with
  | nil => simp
  | cons j l ih =>
    rw [List.foldl_cons]
    obtain ⟨h1, h2, h3, h4⟩ := ih (restoreChannel imask s j)
    refine ⟨?_, ?_, ?_, ?_⟩
    · rw [h1]; unfold restoreChannel Sys.writeChcc; split <;> rfl
    · rw [h2]; unfold restoreChannel Sys.writeChcc; split <;> rfl
    · rw [h3]; unfold restoreChannel Sys.writeChcc; split <;> rfl
    · rw [h4]; unfold restoreChannel Sys.writeChcc; split <;> rfl

/-- The compare registers after the restore loop. -/
theorem restoreFold_chcc (imask : Nat) (l : List Nat) (s : Sys) (i : Nat) :
    (l.foldl (restoreChannel imask) s).hw.chcc i
      = if i ∈ l ∧ channelActive imask i = true then s.sysTimerTimeouts i
        else s.hw.chcc i := by
  induction l generalizing s with
  | nil => simp
  | cons j l ih =>
    rw [List.foldl_cons, ih]
    by_cases hj : channelActive imask j = true
    · by_cases hij : i = j
      · subst hij
        simp [restoreChannel, hj, Sys.writeChcc]
      · simp [restoreChannel, hj, Sys.writeChcc, hij, Function.update_noteq hij]
    · have hj2 : channelActive imask j = false := by simpa using hj
      by_cases hij : i = j
      · subst hij
        simp [restoreChannel, hj2]
      · simp [restoreChannel, hj2, hij]

/-- The writes of the restore loop: one per active channel of the list, in the
order of the list, of the stashed value. -/
theorem restoreFold_trace (imask : Nat) (l : List Nat) (s : Sys) :
    (l.foldl (restoreChannel imask) s).trace
      = s.trace ++ (l.filter (fun i => channelActive imask i)).map
          (fun i => Event.writeChcc i (s.sysTimerTimeouts i)) := by
  induction l generalizing s with
  | nil => simp
  | cons j l ih =>
    rw [List.foldl_cons, ih]
    by_cases hj : channelActive imask j = true
    · simp [restoreChannel, hj, Sys.writeChcc]
    · have hj2 : channelActive imask j = false := by simpa using hj
      simp [restoreChannel, hj2]

/-! ## The power controller: the paths of `enterStandby` -/

/-- The standby path: standby allowed and the deadline beyond the latency. -/
theorem enterStandby_standby (k : Consts) (sleep : HW → HW) (s : Sys)
    (h1 : (checkConstraints k s).1 = true)
    (h2 : soonestDeadline s > k.PowerCC23X0_TOTALTIMESTANDBY) :
    enterStandby k sleep s
      = match waitSystimRun k.SYSTIM_STATUS_VAL_RUN (afterWake k sleep s).hw.statusReads with
        | none =>
          Outcome.stalled
            { afterWake k sleep s with
              hw := { (afterWake k sleep s).hw with statusReads := [] } }
        | some rest =>
          Outcome.returned
            (standbyRestore k s.hw.imask
              { afterWake k sleep s with
                hw := { (afterWake k sleep s).hw with statusReads := rest } }) := by
  unfold soonestDeadline at h2
  simp only [enterStandby, afterWake, beforeSleep, soonestDeadline]
  rw [if_pos h1, if_pos h2]

/-- The paths without standby. -/
theorem enterStandby_no_standby (k : Consts) (sleep : HW → HW) (s : Sys)
    (h : ¬ ((checkConstraints k s).1 = true
            ∧ soonestDeadline s > k.PowerCC23X0_TOTALTIMESTANDBY)) :
    ∃ t, enterStandby k sleep s
        = Outcome.returned
            (if (checkConstraints k s).2 = true then
              ({ s with sysTimerTimeouts := t } : Sys).emit Event.wfi
             else { s with sysTimerTimeouts := t }) := by
  by_cases h1 : (checkConstraints k s).1 = true
  · have h2 : ¬ soonestDeadline s > k.PowerCC23X0_TOTALTIMESTANDBY := fun h2 => h ⟨h1, h2⟩
    unfold soonestDeadline at h2
    refine ⟨(scanChannels s.hw s.hw.imask s.sysTimerTimeouts).1, ?_⟩
    simp only [enterStandby]
    rw [if_pos h1, if_neg h2]
    split <;> rfl
  · refine ⟨s.sysTimerTimeouts, ?_⟩
    simp only [enterStandby]
    rw [if_neg h1]
    split <;> rfl

/-- The trace when the poll loop starts: nine effects, the fourth is the sleep. -/
theorem afterWake_trace (k : Consts) (sleep : HW → HW) (s : Sys) :
    (afterWake k sleep s).trace
      = s.trace ++
        [Event.writeIrq16Sel k.EVTSVT_CPUIRQ16SEL_PUBID_AON_RTC_COMB,
         Event.clearInterrupt,
         Event.writeRtcCh0cc
           (u32 (s.hw.rtcTime8u
                  + sub32 (soonestDeadline s) k.PowerCC23X0_WAKEDELAYSTANDBY
                      / RTC_TO_SYSTIMER_TICKS)),
         Event.powerSleep k.PowerLPF3_STANDBY,
         Event.writeRtcArmClr k.RTC_ARMCLR_CH0_CLR,
         Event.writeRtcIclr k.RTC_ICLR_EV0_CLR,
         Event.ullSync,
         Event.clearInterrupt,
         Event.writeIrq16Sel k.EVTSVT_CPUIRQ16SEL_PUBID_SYSTIM0] := by
  simp [afterWake, beforeSleep, standbyWakeRtc, powerSleepStandby, standbyEntry,
    Sys.emit, Sys.writeIrq16Sel, Sys.writeRtcCh0cc]

theorem afterWake_timeouts (k : Consts) (sleep : HW → HW) (s : Sys) :
    (afterWake k sleep s).sysTimerTimeouts
      = (scanChannels s.hw s.hw.imask s.sysTimerTimeouts).1 := by
  simp [afterWake, beforeSleep, standbyWakeRtc, powerSleepStandby, standbyEntry,
    Sys.emit, Sys.writeIrq16Sel, Sys.writeRtcCh0cc]

/-- The poll loop ends when some reading is `RUN`. -/
theorem waitSystimRun_of_mem (run : Nat) (l : List Nat) (h : run ∈ l) :
    ∃ rest, waitSystimRun run l = some rest := by
  induction l with
  | nil => simp at h
  | cons v l ih =>
    unfold waitSystimRun
    by_cases hv : v = run
    · exact ⟨l, by simp [hv]⟩
    · rcases List.mem_cons.mp h with h' | h'
      · exact absurd h'.symm hv
      · simpa [hv] using ih h'

theorem afterWake_statusReads (k : Consts) (sleep : HW → HW) (s : Sys) :
    (afterWake k sleep s).hw.statusReads = (sleep (beforeSleep k s).hw).statusReads := by
  simp [afterWake, standbyWakeRtc, powerSleepStandby, Sys.emit, Sys.writeIrq16Sel]

theorem channelActive_mask_ne_zero {imask i : Nat} (h : channelActive imask i = true) :
    imask ≠ 0 := by
  intro h0
  subst h0
  simp [channelActive] at h

/-- The stash written by the scan holds the compare value of every active
channel 0..4. -/
theorem scanChannels_fst_active (hw : HW) (imask : Nat) (t : Nat → Nat) (i : Nat)
    (hi : i < 5) (ha : channelActive imask i = true) :
    (scanChannels hw imask t).1 i = hw.chcc i := by
  unfold scanChannels
  rw [if_pos (channelActive_mask_ne_zero ha), scanFold_fst,
    if_pos ⟨List.mem_range.mpr hi, ha⟩]

/-- The state and the trace after the restore half of the standby path. -/
theorem standbyRestore_spec (k : Consts) (imask : Nat) (s : Sys) :
    (standbyRestore k imask s).hw.imask = imask
      ∧ (∀ i, (standbyRestore k imask s).hw.chcc i
            = if i < 5 ∧ channelActive imask i = true then s.sysTimerTimeouts i
              else s.hw.chcc i)
      ∧ (standbyRestore k imask s).hw.irq16sel = s.hw.irq16sel
      ∧ (standbyRestore k imask s).hw.rtcCh0cc = s.hw.rtcCh0cc
      ∧ (standbyRestore k imask s).trace
          = s.trace ++ restoreEvents k imask s.sysTimerTimeouts := by
  have hf := (restoreFold_frame imask (List.range SYSTIMER_CHANNEL_COUNT) s).2.2.2
  refine ⟨?_, ?_, ?_, ?_, ?_⟩
  · simp [standbyRestore, Sys.emit, Sys.writeImask]
  · intro i
    have h := restoreFold_chcc imask (List.range SYSTIMER_CHANNEL_COUNT) s i
    simp only [List.mem_range, SYSTIMER_CHANNEL_COUNT] at h
    simpa [standbyRestore, Sys.emit, Sys.writeImask, SYSTIMER_CHANNEL_COUNT] using h
  · simp only [standbyRestore, Sys.emit, Sys.writeImask]
    rw [hf]
  · simp only [standbyRestore, Sys.emit, Sys.writeImask]
    rw [hf]
  · simp [standbyRestore, Sys.emit, Sys.writeImask, restoreEvents, restoreFold_trace]

/-- The restore writes only depend on the stash at the active channels 0..4. -/
theorem restoreEvents_congr (k : Consts) (imask : Nat) (cc cc2 : Nat → Nat)
    (h : ∀ i, i < 5 → channelActive imask i = true → cc i = cc2 i) :
    restoreEvents k imask cc = restoreEvents k imask cc2 := by
  unfold restoreEvents
  congr 1
  apply List.map_congr_left
  intro i hi
  rw [List.mem_filter, List.mem_range] at hi
  rw [h i hi.1 hi.2]

/-- No sleep instruction among the effects of the restore half. -/
theorem restoreEvents_no_sleep (k : Consts) (imask : Nat) (cc : Nat → Nat) :
    (restoreEvents k imask cc).filter Event.isSleep = [] := by
  unfold restoreEvents
  rw [List.filter_append, List.filter_map]
  simp [Event.isSleep, Function.comp_def]

/-- The trace of the standby path: the nine effects up to the re-routing of the
shared line, then, if the poll loop ends, the restore effects. -/
theorem enterStandby_standby_trace (k : Consts) (sleep : HW → HW) (s : Sys)
    (h1 : (checkConstraints k s).1 = true)
    (h2 : soonestDeadline s > k.PowerCC23X0_TOTALTIMESTANDBY) :
    (enterStandby k sleep s).state.trace
      = (afterWake k sleep s).trace ++
        (match waitSystimRun k.SYSTIM_STATUS_VAL_RUN (sleep (beforeSleep k s).hw).statusReads with
         | none => []
         | some _ => restoreEvents k s.hw.imask s.hw.chcc) := by
  rw [enterStandby_standby k sleep s h1 h2, afterWake_statusReads]
  cases waitSystimRun k.SYSTIM_STATUS_VAL_RUN (sleep (beforeSleep k s).hw).statusReads with
  | none => simp [Outcome.state]
  | some rest =>
    simp only [Outcome.state]
    rw [(standbyRestore_spec k s.hw.imask _).2.2.2.2]
    simp only [afterWake_timeouts]
    rw [restoreEvents_congr k s.hw.imask _ s.hw.chcc
      (fun i hi ha => scanChannels_fst_active s.hw s.hw.imask s.sysTimerTimeouts i hi ha)]

/-- The trace of the paths without standby: one `__WFI()` if idle is allowed,
nothing otherwise; the registers are untouched and the call returns. -/
theorem enterStandby_no_standby_spec (k : Consts) (sleep : HW → HW) (s : Sys)
    (h : ¬ ((checkConstraints k s).1 = true
            ∧ soonestDeadline s > k.PowerCC23X0_TOTALTIMESTANDBY)) :
    ∃ s', enterStandby k sleep s = Outcome.returned s'
      ∧ s'.hw = s.hw
      ∧ s'.trace = s.trace ++ (if (checkConstraints k s).2 = true then [Event.wfi] else []) := by
  obtain ⟨t, ht⟩ := enterStandby_no_standby k sleep s h
  refine ⟨_, ht, ?_, ?_⟩
  · split <;> rfl
  · split <;> simp [Sys.emit]

/-- C2: whatever the sleep leaves in the registers, a call of `enterStandby`
that returns leaves the interrupt mask as read before the sleep and every
channel 0..4 active in that mask with the compare value it had before the sleep;
and the call returns as soon as the status readings after the sleep contain
`SYSTIM_STATUS_VAL_RUN`. -/
theorem enterStandby_round_trip (k : Consts) (sleep : HW → HW) (s : Sys) :
    (∀ s', enterStandby k sleep s = Outcome.returned s' →
        s'.hw.imask = s.hw.imask
          ∧ ∀ i, i < 5 → channelActive s.hw.imask i = true → s'.hw.chcc i = s.hw.chcc i)
      ∧ (k.SYSTIM_STATUS_VAL_RUN ∈ (sleep (beforeSleep k s).hw).statusReads →
          ∃ s', enterStandby k sleep s = Outcome.returned s') := by
  by_cases h : (checkConstraints k s).1 = true
      ∧ soonestDeadline s > k.PowerCC23X0_TOTALTIMESTANDBY
  · have he := enterStandby_standby k sleep s h.1 h.2
    rw [afterWake_statusReads] at he
    constructor
    · intro s' hs'
      rw [he] at hs'
      cases hw : waitSystimRun k.SYSTIM_STATUS_VAL_RUN (sleep (beforeSleep k s).hw).statusReads with
      | none => rw [hw] at hs'; cases hs'
      | some rest =>
        rw [hw] at hs'
        simp only [Outcome.returned.injEq] at hs'
        subst hs'
        obtain ⟨hm, hc, -⟩ := standbyRestore_spec k s.hw.imask
          { afterWake k sleep s with
            hw := { (afterWake k sleep s).hw with statusReads := rest } }
        refine ⟨hm, ?_⟩
        intro i hi ha
        rw [hc i, if_pos ⟨hi, ha⟩]
        simp only [afterWake_timeouts]
        exact scanChannels_fst_active s.hw s.hw.imask s.sysTimerTimeouts i hi ha
    · intro hrun
      obtain ⟨rest, hrest⟩ := waitSystimRun_of_mem _ _ hrun
      rw [he, hrest]
      exact ⟨_, rfl⟩
  · obtain ⟨s1, hs1, hhw, -⟩ := enterStandby_no_standby_spec k sleep s h
    constructor
    · intro s' hs'
      rw [hs1] at hs'
      simp only [Outcome.returned.injEq] at hs'
      subst hs'
      rw [hhw]
      exact ⟨rfl, fun _ _ _ => rfl⟩
    · intro _
      exact ⟨s1, hs1⟩

/-- C2 on a standby cycle that wipes the compare registers and the mask: the
call returns with mask 5 and the compare values 500000 and 1200000 of the two
active channels. -/
theorem enterStandby_round_trip_witness :
    ∃ s', enterStandby exampleConsts wipingSleep exampleTwoChannels = Outcome.returned s'
      ∧ s'.hw.imask = 5 ∧ s'.hw.chcc 0 = 500000 ∧ s'.hw.chcc 2 = 1200000 := by
  have h := enterStandby_round_trip exampleConsts wipingSleep exampleTwoChannels
  obtain ⟨s', hs'⟩ := h.2 (by decide)
  obtain ⟨hm, hc⟩ := h.1 s' hs'
  exact ⟨s', hs', hm, hc 0 (by decide) (by decide), hc 2 (by decide) (by decide)⟩

/-- With an active channel among 0..4, `sysTimerDelta` at line 245 is the
delta of an active channel and at most the delta of every active channel. -/
theorem soonestDeadline_min_delta (s : Sys)
    (hact : ∃ i, i < 5 ∧ channelActive s.hw.imask i = true) :
    (∃ i, i < 5 ∧ channelActive s.hw.imask i = true
        ∧ soonestDeadline s = channelDelta s.hw s.hw.time1u i)
      ∧ (∀ i, i < 5 → channelActive s.hw.imask i = true →
          soonestDeadline s ≤ channelDelta s.hw s.hw.time1u i) := by
  obtain ⟨i0, hi0, ha0⟩ := hact
  have hne : s.hw.imask ≠ 0 := channelActive_mask_ne_zero ha0
  have hval : soonestDeadline s
      = ((List.range SYSTIMER_CHANNEL_COUNT).foldl
          (scanChannel s.hw s.hw.imask s.hw.time1u) (s.sysTimerTimeouts, 0xFFFFFFFF)).2 := by
    unfold soonestDeadline scanChannels
    rw [if_pos hne]
  have hle : ∀ i, i < 5 → channelActive s.hw.imask i = true →
      soonestDeadline s ≤ channelDelta s.hw s.hw.time1u i := by
    intro i hi ha
    rw [hval]
    exact scanFold_snd_le _ _ _ _ _ i (List.mem_range.mpr hi) ha
  refine ⟨?_, hle⟩
  have hmem := scanFold_snd_mem s.hw s.hw.imask s.hw.time1u
    (List.range SYSTIMER_CHANNEL_COUNT) (s.sysTimerTimeouts, 0xFFFFFFFF)
  rw [← hval] at hmem
  rcases hmem with h | ⟨i, hi, ha, h⟩
  · exfalso
    have h1 := hle i0 hi0 ha0
    have h2 := channelDelta_le_max s.hw s.hw.time1u i0
    unfold MAX_SYSTIMER_DELTA at h2
    simp only at h
    omega
  · exact ⟨i, by simpa [SYSTIMER_CHANNEL_COUNT] using hi, ha, h⟩

/-- C4: when at least one of the channels 0..4 is active, the soonest deadline
`enterStandby` computes is the minimum over the active channels of
`clamp((cc_i - (now << s_i)) mod 2^32) >> s_i`: it is the value of an active
channel and it is at most the value of every active channel. -/
theorem soonestDeadline_is_min (s : Sys)
    (hact : ∃ i, i < 5 ∧ channelActive s.hw.imask i = true) :
    (∃ i, i < 5 ∧ channelActive s.hw.imask i = true
        ∧ soonestDeadline s = specChannelDeadline s.hw i)
      ∧ (∀ i, i < 5 → channelActive s.hw.imask i = true →
          soonestDeadline s ≤ specChannelDeadline s.hw i) := by
  obtain ⟨⟨i, hi, ha, h⟩, hle⟩ := soonestDeadline_min_delta s hact
  refine ⟨⟨i, hi, ha, ?_⟩, ?_⟩
  · rw [h, channelDelta_eq_spec]
  · intro m hm hma
    rw [← channelDelta_eq_spec]
    exact hle m hm hma

/-- C4 on channels 0 (1us, at 500000) and 2 (250ns, at 1200000) with the counter
at 0. -/
theorem soonestDeadline_is_min_witness :
    (∃ i, i < 5 ∧ channelActive exampleTwoChannels.hw.imask i = true
        ∧ soonestDeadline exampleTwoChannels = specChannelDeadline exampleTwoChannels.hw i)
      ∧ (∀ i, i < 5 → channelActive exampleTwoChannels.hw.imask i = true →
          soonestDeadline exampleTwoChannels ≤ specChannelDeadline exampleTwoChannels.hw i) :=
  soonestDeadline_is_min exampleTwoChannels ⟨0, by decide, by decide⟩

/-- C5: the sleep instructions one call of `enterStandby` performs are: the
standby sleep alone when standby is allowed and the soonest deadline is greater
than `PowerCC23X0_TOTALTIMESTANDBY`; otherwise one `__WFI()` alone when idle is
allowed; otherwise none.  There is never more than one. -/
theorem enterStandby_one_sleep (k : Consts) (sleep : HW → HW) (s : Sys) :
    ∃ evs, (enterStandby k sleep s).state.trace = s.trace ++ evs
      ∧ evs.filter Event.isSleep
          = (if (checkConstraints k s).1 = true
                ∧ soonestDeadline s > k.PowerCC23X0_TOTALTIMESTANDBY then
              [Event.powerSleep k.PowerLPF3_STANDBY]
             else if (checkConstraints k s).2 = true then [Event.wfi]
             else [])
      ∧ (evs.filter Event.isSleep).length ≤ 1 := by
  by_cases h : (checkConstraints k s).1 = true
      ∧ soonestDeadline s > k.PowerCC23X0_TOTALTIMESTANDBY
  · have ht := enterStandby_standby_trace k sleep s h.1 h.2
    rw [afterWake_trace, List.append_assoc] at ht
    refine ⟨_, ht, ?_⟩
    rw [if_pos h, List.filter_append]
    have htail : (match waitSystimRun k.SYSTIM_STATUS_VAL_RUN
          (sleep (beforeSleep k s).hw).statusReads with
        | none => []
        | some _ => restoreEvents k s.hw.imask s.hw.chcc).filter Event.isSleep = [] := by
      split
      · rfl
      · exact restoreEvents_no_sleep _ _ _
    rw [htail]
    simp [Event.isSleep]
  · obtain ⟨s1, hs1, -, htr⟩ := enterStandby_no_standby_spec k sleep s h
    refine ⟨_, by rw [hs1]; exact htr, ?_⟩
    rw [if_neg h]
    split <;> simp [Event.isSleep]

/-- C6 (as stated, refuted): with latency 500 and wake delay 185, standby
allowed and a single deadline 600us ahead, the deadline minus the wake delay is
415 < 500, yet `enterStandby` performs the standby sleep and no `__WFI()`. -/
theorem enterStandby_sleeps_within_margin :
    (checkConstraints exampleConsts exampleNearDeadline).1 = true
      ∧ (checkConstraints exampleConsts exampleNearDeadline).2 = true
      ∧ soonestDeadline exampleNearDeadline = 600
      ∧ (600 : Int) - (exampleConsts.PowerCC23X0_WAKEDELAYSTANDBY : Int)
          < (exampleConsts.PowerCC23X0_TOTALTIMESTANDBY : Int)
      ∧ Event.powerSleep exampleConsts.PowerLPF3_STANDBY
          ∈ (enterStandby exampleConsts wipingSleep exampleNearDeadline).state.trace
      ∧ Event.wfi ∉ (enterStandby exampleConsts wipingSleep exampleNearDeadline).state.trace := by
  decide

/-- C6 (amended): whenever standby is allowed and the soonest deadline itself is
not greater than `PowerCC23X0_TOTALTIMESTANDBY`, `enterStandby` returns without
entering standby and without touching a register; its only effect is one
`__WFI()` if idle is allowed, and nothing otherwise. -/
theorem enterStandby_short_deadline (k : Consts) (sleep : HW → HW) (s : Sys)
    (_h1 : (checkConstraints k s).1 = true)
    (h2 : soonestDeadline s ≤ k.PowerCC23X0_TOTALTIMESTANDBY) :
    ∃ s', enterStandby k sleep s = Outcome.returned s'
      ∧ s'.hw = s.hw
      ∧ s'.trace = s.trace ++ (if (checkConstraints k s).2 = true then [Event.wfi] else []) := by
  exact enterStandby_no_standby_spec k sleep s (fun h => absurd h.2 (by omega))

/-- C6 (amended) with latency 600: the deadline 600 is not greater, one `__WFI()`. -/
theorem enterStandby_short_deadline_witness :
    ∃ s', enterStandby { exampleConsts with PowerCC23X0_TOTALTIMESTANDBY := 600 }
          wipingSleep exampleNearDeadline = Outcome.returned s'
      ∧ s'.hw = exampleNearDeadline.hw
      ∧ s'.trace = exampleNearDeadline.trace ++ [Event.wfi] :=
  enterStandby_short_deadline { exampleConsts with PowerCC23X0_TOTALTIMESTANDBY := 600 }
    wipingSleep exampleNearDeadline (by decide) (by decide)

/-- C7 (as stated, refuted): with a clock source other than LFOSC, the filter
status bit clear (unsettled) and standby not disallowed by the constraint mask,
`enterStandby` performs the standby sleep. -/
theorem enterStandby_unsettled_other_source_sleeps :
    (exampleOtherSourceUnsettled.hw.lfclkstat &&& exampleConsts.CKMD_LFCLKSTAT_FLTSETTLED_M) = 0
      ∧ (exampleOtherSourceUnsettled.constraintMask
          &&& (1 <<< exampleConsts.PowerLPF3_DISALLOW_STANDBY)) = 0
      ∧ (exampleOtherSourceUnsettled.hw.lfclksel &&& exampleConsts.CKMD_LFCLKSEL_MAIN_M)
          ≠ exampleConsts.CKMD_LFCLKSEL_MAIN_LFOSC
      ∧ Event.powerSleep exampleConsts.PowerLPF3_STANDBY
          ∈ (enterStandby exampleConsts wipingSleep exampleOtherSourceUnsettled).state.trace := by
  decide

/-- C7 (amended): if the low-frequency clock source is LFOSC, its filter is
unsettled and the constraint mask does not disallow standby, `enterStandby`
returns at once with the state unchanged: neither `__WFI()` nor the standby
sleep, whatever the idle constraint bit and the channels are. -/
theorem enterStandby_lfosc_unsettled (k : Consts) (sleep : HW → HW) (s : Sys)
    (hsel : s.hw.lfclksel &&& k.CKMD_LFCLKSEL_MAIN_M = k.CKMD_LFCLKSEL_MAIN_LFOSC)
    (hflt : s.hw.lfclkstat &&& k.CKMD_LFCLKSTAT_FLTSETTLED_M = 0)
    (hcon : s.constraintMask &&& (1 <<< k.PowerLPF3_DISALLOW_STANDBY) = 0) :
    enterStandby k sleep s = Outcome.returned s := by
  have hc : checkConstraints k s = (false, false) := by
    simp [checkConstraints, hsel, hflt, hcon]
  simp [enterStandby, hc]

/-- C7 (amended) on LFOSC with the filter unsettled and no constraint set. -/
theorem enterStandby_lfosc_unsettled_witness :
    enterStandby exampleConsts wipingSleep exampleLfoscUnsettled
      = Outcome.returned exampleLfoscUnsettled :=
  enterStandby_lfosc_unsettled exampleConsts wipingSleep exampleLfoscUnsettled
    (by decide) (by decide) (by decide)

/-- The first four effects of the standby path. -/
theorem enterStandby_standby_head (k : Consts) (sleep : HW → HW) (s : Sys)
    (h1 : (checkConstraints k s).1 = true)
    (h2 : soonestDeadline s > k.PowerCC23X0_TOTALTIMESTANDBY) :
    ∃ tail, (enterStandby k sleep s).state.trace
        = s.trace ++
          [Event.writeIrq16Sel k.EVTSVT_CPUIRQ16SEL_PUBID_AON_RTC_COMB,
           Event.clearInterrupt,
           Event.writeRtcCh0cc
             ((s.hw.rtcTime8u
                + sub32 (soonestDeadline s) k.PowerCC23X0_WAKEDELAYSTANDBY / 8) % 2 ^ 32),
           Event.powerSleep k.PowerLPF3_STANDBY] ++ tail := by
  have ht := enterStandby_standby_trace k sleep s h1 h2
  rw [afterWake_trace] at ht
  refine ⟨[Event.writeRtcArmClr k.RTC_ARMCLR_CH0_CLR,
      Event.writeRtcIclr k.RTC_ICLR_EV0_CLR, Event.ullSync, Event.clearInterrupt,
      Event.writeIrq16Sel k.EVTSVT_CPUIRQ16SEL_PUBID_SYSTIM0] ++
    (match waitSystimRun k.SYSTIM_STATUS_VAL_RUN (sleep (beforeSleep k s).hw).statusReads with
     | none => []
     | some _ => restoreEvents k s.hw.imask s.hw.chcc), ?_⟩
  rw [ht]
  simp [u32, RTC_TO_SYSTIMER_TICKS]

/-- C8: whenever `enterStandby` enters standby, with soonest deadline `d` and RTC
reading `r`, its effects start with the re-routing of the shared line, the
clearing of the pending interrupt, the write of
`(r + (d - PowerCC23X0_WAKEDELAYSTANDBY) / 8) mod 2^32` to the RTC compare
register and the sleep; the subtraction is the 32-bit one, which is the plain
one when the wake delay does not exceed `d`. -/
theorem enterStandby_rtc_compare (k : Consts) (sleep : HW → HW) (s : Sys)
    (h1 : (checkConstraints k s).1 = true)
    (h2 : soonestDeadline s > k.PowerCC23X0_TOTALTIMESTANDBY) :
    (∃ tail, (enterStandby k sleep s).state.trace
        = s.trace ++
          [Event.writeIrq16Sel k.EVTSVT_CPUIRQ16SEL_PUBID_AON_RTC_COMB,
           Event.clearInterrupt,
           Event.writeRtcCh0cc
             ((s.hw.rtcTime8u
                + sub32 (soonestDeadline s) k.PowerCC23X0_WAKEDELAYSTANDBY / 8) % 2 ^ 32),
           Event.powerSleep k.PowerLPF3_STANDBY] ++ tail)
      ∧ (k.PowerCC23X0_WAKEDELAYSTANDBY ≤ soonestDeadline s →
          sub32 (soonestDeadline s) k.PowerCC23X0_WAKEDELAYSTANDBY
            = soonestDeadline s - k.PowerCC23X0_WAKEDELAYSTANDBY) := by
  constructor
  · exact enterStandby_standby_head k sleep s h1 h2
  · intro hw
    have hd := soonestDeadline_le_u32_max s
    exact sub32_of_le (by omega) hw

/-- C8 with latency 500, wake delay 185, deadline 300000 and RTC reading 1000:
the RTC compare register is written with `1000 + (300000 - 185) / 8 = 38476`. -/
theorem enterStandby_rtc_compare_witness :
    (∃ tail, (enterStandby exampleConsts wipingSleep exampleTwoChannels).state.trace
        = exampleTwoChannels.trace ++
          [Event.writeIrq16Sel exampleConsts.EVTSVT_CPUIRQ16SEL_PUBID_AON_RTC_COMB,
           Event.clearInterrupt,
           Event.writeRtcCh0cc
             ((exampleTwoChannels.hw.rtcTime8u
                + sub32 (soonestDeadline exampleTwoChannels)
                    exampleConsts.PowerCC23X0_WAKEDELAYSTANDBY / 8) % 2 ^ 32),
           Event.powerSleep exampleConsts.PowerLPF3_STANDBY] ++ tail)
      ∧ (exampleConsts.PowerCC23X0_WAKEDELAYSTANDBY ≤ soonestDeadline exampleTwoChannels →
          sub32 (soonestDeadline exampleTwoChannels) exampleConsts.PowerCC23X0_WAKEDELAYSTANDBY
            = soonestDeadline exampleTwoChannels - exampleConsts.PowerCC23X0_WAKEDELAYSTANDBY)
      ∧ (exampleTwoChannels.hw.rtcTime8u
          + sub32 (soonestDeadline exampleTwoChannels)
              exampleConsts.PowerCC23X0_WAKEDELAYSTANDBY / 8) % 2 ^ 32 = 38476 :=
  ⟨(enterStandby_rtc_compare exampleConsts wipingSleep exampleTwoChannels
      (by decide) (by decide)).1,
   (enterStandby_rtc_compare exampleConsts wipingSleep exampleTwoChannels
      (by decide) (by decide)).2,
   by decide⟩

/-- The example of C9: a 1us channel at 500000 and a 250ns channel at 1200000,
counter at 0, give the deadline 300000. -/
theorem soonestDeadline_two_channels (s : Sys) (i j : Nat) (hi : i < 2)
    (hj : 2 ≤ j ∧ j < 5) (hnow : s.hw.time1u = 0)
    (hmask : s.hw.imask = 1 <<< i ||| 1 <<< j)
    (hci : s.hw.chcc i = 500000) (hcj : s.hw.chcc j = 1200000) :
    soonestDeadline s = 300000 := by
  obtain ⟨hj1, hj2⟩ := hj
  have hact : ∀ m, m < 5 →
      (channelActive (1 <<< i ||| 1 <<< j) m = true ↔ m = i ∨ m = j) := by
    intro m hm
    interval_cases i <;> interval_cases j <;> interval_cases m <;> decide
  have hdi : channelDelta s.hw 0 i = 500000 := by
    unfold channelDelta
    rw [hci]
    interval_cases i <;> decide
  have hdj : channelDelta s.hw 0 j = 300000 := by
    unfold channelDelta
    rw [hcj]
    interval_cases j <;> decide
  have hai : channelActive s.hw.imask i = true := by
    rw [hmask]
    exact (hact i (by omega)).mpr (Or.inl rfl)
  have haj : channelActive s.hw.imask j = true := by
    rw [hmask]
    exact (hact j hj2).mpr (Or.inr rfl)
  obtain ⟨⟨m, hm, hma, hval⟩, hle⟩ := soonestDeadline_min_delta s ⟨i, by omega, hai⟩
  have hlj := hle j hj2 haj
  rw [hnow] at hval hlj
  rw [hmask] at hma
  rcases (hact m hm).mp hma with h | h
  · subst h
    omega
  · subst h
    omega

/-- C9 (as stated, refuted): in the example (deadline 300000, RTC reading 1000)
with constants that total 200000, latency 200000 and wake delay 0, the RTC
compare register is armed at `1000 + 300000 / 8 = 38500`, not at
`1000 + 12500`; with latency 200000 and wake delay 185 it is armed at
`1000 + (300000 - 185) / 8 = 38476`. -/
theorem enterStandby_example_budget_not_100000 :
    soonestDeadline exampleTwoChannels = 300000
      ∧ Event.writeRtcCh0cc (1000 + 37500)
          ∈ (enterStandby
              { exampleConsts with
                PowerCC23X0_TOTALTIMESTANDBY := 200000, PowerCC23X0_WAKEDELAYSTANDBY := 0 }
              wipingSleep exampleTwoChannels).state.trace
      ∧ Event.writeRtcCh0cc (1000 + 12500)
          ∉ (enterStandby
              { exampleConsts with
                PowerCC23X0_TOTALTIMESTANDBY := 200000, PowerCC23X0_WAKEDELAYSTANDBY := 0 }
              wipingSleep exampleTwoChannels).state.trace
      ∧ Event.writeRtcCh0cc (1000 + 37476)
          ∈ (enterStandby
              { exampleConsts with
                PowerCC23X0_TOTALTIMESTANDBY := 200000, PowerCC23X0_WAKEDELAYSTANDBY := 185 }
              wipingSleep exampleTwoChannels).state.trace
      ∧ Event.writeRtcCh0cc (1000 + 12500)
          ∉ (enterStandby
              { exampleConsts with
                PowerCC23X0_TOTALTIMESTANDBY := 200000, PowerCC23X0_WAKEDELAYSTANDBY := 185 }
              wipingSleep exampleTwoChannels).state.trace := by
  decide

/-- C9 (amended): with the counter at 0, standby allowed and exactly two active
channels, one of shift 0 at 500000 and one of shift 2 at 1200000, the soonest
deadline is 300000; when `PowerCC23X0_TOTALTIMESTANDBY` is below 300000 standby
is entered and the RTC compare register is armed at
`(r + (300000 - PowerCC23X0_WAKEDELAYSTANDBY) / 8) mod 2^32`, the budget being
the deadline minus the wake delay alone; this is `r + 12500` when the wake delay
is 200000. -/
theorem enterStandby_two_channel_example (k : Consts) (sleep : HW → HW) (s : Sys)
    (i j : Nat) (hi : i < 2) (hj : 2 ≤ j ∧ j < 5) (hnow : s.hw.time1u = 0)
    (hmask : s.hw.imask = 1 <<< i ||| 1 <<< j)
    (hci : s.hw.chcc i = 500000) (hcj : s.hw.chcc j = 1200000)
    (h1 : (checkConstraints k s).1 = true)
    (hT : k.PowerCC23X0_TOTALTIMESTANDBY < 300000) :
    soonestDeadline s = 300000
      ∧ (∃ tail, (enterStandby k sleep s).state.trace
          = s.trace ++
            [Event.writeIrq16Sel k.EVTSVT_CPUIRQ16SEL_PUBID_AON_RTC_COMB,
             Event.clearInterrupt,
             Event.writeRtcCh0cc
               ((s.hw.rtcTime8u
                  + sub32 300000 k.PowerCC23X0_WAKEDELAYSTANDBY / 8) % 2 ^ 32),
             Event.powerSleep k.PowerLPF3_STANDBY] ++ tail)
      ∧ (k.PowerCC23X0_WAKEDELAYSTANDBY ≤ 300000 →
          sub32 300000 k.PowerCC23X0_WAKEDELAYSTANDBY
            = 300000 - k.PowerCC23X0_WAKEDELAYSTANDBY)
      ∧ (k.PowerCC23X0_WAKEDELAYSTANDBY = 200000 →
          (s.hw.rtcTime8u + sub32 300000 k.PowerCC23X0_WAKEDELAYSTANDBY / 8) % 2 ^ 32
            = (s.hw.rtcTime8u + 12500) % 2 ^ 32) := by
  have hd := soonestDeadline_two_channels s i j hi hj hnow hmask hci hcj
  refine ⟨hd, ?_, ?_, ?_⟩
  · have h := enterStandby_standby_head k sleep s h1 (by omega)
    rw [hd] at h
    exact h
  · intro hw
    exact sub32_of_le (by norm_num) hw
  · intro hw
    rw [hw]
    rfl

/-- C9 (amended) with latency 200000 and wake delay 200000 on channels 0 and 2:
the RTC compare register is armed at `1000 + 12500`. -/
theorem enterStandby_two_channel_example_witness :
    soonestDeadline exampleTwoChannels = 300000
      ∧ Event.writeRtcCh0cc (1000 + 12500)
          ∈ (enterStandby
              { exampleConsts with
                PowerCC23X0_TOTALTIMESTANDBY := 200000,
                PowerCC23X0_WAKEDELAYSTANDBY := 200000 }
              wipingSleep exampleTwoChannels).state.trace := by
  obtain ⟨hd, ⟨tail, ht⟩, -, -⟩ :=
    enterStandby_two_channel_example
      { exampleConsts with
        PowerCC23X0_TOTALTIMESTANDBY := 200000, PowerCC23X0_WAKEDELAYSTANDBY := 200000 }
      wipingSleep exampleTwoChannels 0 2 (by decide) (by decide) (by decide) (by decide)
      (by decide) (by decide) (by decide) (by decide)
  refine ⟨hd, ?_⟩
  rw [ht]
  simp only [List.mem_append, List.mem_cons]
  left; right; right; right; left
  decide

/-! ## The tick source: additivity, arming, interrupt and initialisation -/

/-- C11 (failing input): with tick period 10, `last = 2^32 - 10`,
`mid = 2^32 - 5` and `current = 5`, `mid` lies on the forward path from `last`
to `current` (distances 5 and 15), the two parts announce `1 + 0` ticks and the
whole path announces 0 ticks: the sum over the parts is not the value over the
whole across the wrap. -/
theorem elapsed_ticks_wrap_not_additive :
    sub32 4294967291 4294967286 ≤ sub32 5 4294967286
      ∧ sys_clock_elapsed_ticks 10 4294967291 4294967286 = 1
      ∧ sys_clock_elapsed_ticks 10 5 4294967291 = 0
      ∧ sys_clock_elapsed_ticks 10 5 4294967286 = 0
      ∧ sys_clock_elapsed_ticks 10 4294967291 4294967286
          + sys_clock_elapsed_ticks 10 5 4294967291
          ≠ sys_clock_elapsed_ticks 10 5 4294967286 := by
  decide

/-- C12: for every counter reading `now`, tick period `T ≥ 1` and `ticks ≥ 0`
with `ticks * T ≤ 0xFFBFFFFF` (the sentinel being negative),
`sys_clock_set_timeout` performs one write, of `(now / T + ticks) * T mod 2^32` to
the compare register of channel 0. -/
theorem set_timeout_on_tick_grid (k : Consts) (ticks : Int) (idle : Bool) (s : Sys)
    (hT : 1 ≤ k.TICK_PERIOD_SYS) (hK : k.K_TICKS_FOREVER < 0)
    (hnow : s.hw.time1u < 2 ^ 32) (hticks : 0 ≤ ticks)
    (hprod : ticks.toNat * k.TICK_PERIOD_SYS ≤ 0xFFBFFFFF) :
    (sys_clock_set_timeout k ticks idle s).hw.chcc 0
        = ((s.hw.time1u / k.TICK_PERIOD_SYS + ticks.toNat) * k.TICK_PERIOD_SYS) % 2 ^ 32
      ∧ (sys_clock_set_timeout k ticks idle s).trace
        = s.trace ++ [Event.writeChcc 0
            (((s.hw.time1u / k.TICK_PERIOD_SYS + ticks.toNat) * k.TICK_PERIOD_SYS) % 2 ^ 32)] := by
  rw [two_pow_32] at hnow
  have hne : ticks ≠ k.K_TICKS_FOREVER := by omega
  have hn_le : ticks.toNat ≤ ticks.toNat * k.TICK_PERIOD_SYS := Nat.le_mul_of_pos_right _ hT
  have htoU : toU32 ticks = ticks.toNat := by
    unfold toU32
    omega
  have hmod : s.hw.time1u % k.TICK_PERIOD_SYS ≤ s.hw.time1u := Nat.mod_le _ _
  have hdm := Nat.div_add_mod s.hw.time1u k.TICK_PERIOD_SYS
  have hnowTick : sub32 s.hw.time1u (s.hw.time1u % k.TICK_PERIOD_SYS)
      = s.hw.time1u / k.TICK_PERIOD_SYS * k.TICK_PERIOD_SYS := by
    rw [sub32_of_le hnow hmod, Nat.mul_comm]
    omega
  have hto : u32 (toU32 ticks * k.TICK_PERIOD_SYS) = ticks.toNat * k.TICK_PERIOD_SYS := by
    rw [htoU]
    exact u32_of_lt (by omega)
  have hval : (sys_clock_set_timeout k ticks idle s).hw.chcc 0
      = ((s.hw.time1u / k.TICK_PERIOD_SYS + ticks.toNat) * k.TICK_PERIOD_SYS) % 2 ^ 32 := by
    simp only [sys_clock_set_timeout, if_pos hne, Sys.writeChcc, Function.update_same]
    rw [hnowTick, hto, if_neg (by unfold SYSTIM_TIMEOUT_MAX; omega), Nat.add_mul]
    rfl
  refine ⟨hval, ?_⟩
  rw [← hval]
  simp only [sys_clock_set_timeout, if_pos hne, Sys.writeChcc, Function.update_same]

/-- C12 at tick period 100, counter reading 123456 and `ticks = 7`: the value
written is `(1234 + 7) * 100 = 124100`. -/
theorem set_timeout_on_tick_grid_witness :
    (sys_clock_set_timeout exampleConsts 7 false exampleTicking).hw.chcc 0 = 124100
      ∧ (sys_clock_set_timeout exampleConsts 7 false exampleTicking).trace
          = exampleTicking.trace ++ [Event.writeChcc 0 124100] :=
  set_timeout_on_tick_grid exampleConsts 7 false exampleTicking
    (by decide) (by decide) (by decide) (by decide) (by decide)

/-- C13 (failing input): with tick period 100, counter at 0 and
`ticks = 42949673`, the exact product `4294967300` exceeds `0xFFBFFFFF`, but its
32-bit truncation is 4, so the code writes 4 to the compare register of channel 0
instead of the clamped `0xFFBFFFFF - 0xFFBFFFFF mod 100 = 4290772900`. -/
theorem set_timeout_overflow_not_clamped :
    (42949673 : Int) * 100 > 0xFFBFFFFF
      ∧ (sys_clock_set_timeout exampleConsts 42949673 false (Sys.ofHW HW.zero)).hw.chcc 0 = 4
      ∧ (0 - 0 % 100 + (0xFFBFFFFF - 0xFFBFFFFF % 100)) % 2 ^ 32 = 4290772900 := by
  decide

/-- C14: with the sentinel `K_TICKS_FOREVER`, `sys_clock_set_timeout` leaves the
whole state as it is, for either value of the idle hint: no register is written,
`last_systim_count` is unchanged and no effect is recorded. -/
theorem set_timeout_forever_noop (k : Consts) (idle : Bool) (s : Sys) :
    sys_clock_set_timeout k k.K_TICKS_FOREVER idle s = s
      ∧ (sys_clock_set_timeout k k.K_TICKS_FOREVER idle s).hw.chcc 0 = s.hw.chcc 0
      ∧ (sys_clock_set_timeout k k.K_TICKS_FOREVER idle s).hw.imask = s.hw.imask
      ∧ (sys_clock_set_timeout k k.K_TICKS_FOREVER idle s).last_systim_count
          = s.last_systim_count := by
  have h : sys_clock_set_timeout k k.K_TICKS_FOREVER idle s = s := by
    simp [sys_clock_set_timeout]
  rw [h]
  exact ⟨rfl, rfl, rfl, rfl⟩

/-- C20: after `sys_clock_driver_init` with counter reading `n`,
`last_systim_count = n`, the compare register of channel 0 holds
`(n + 0xFFBFFFFF) mod 2^32`, the configuration of channel 0 is 0, the bit
`SYSTIM_IMSET_EV0_SET` is set in the interrupt mask (channel 0 is active when that
constant is bit 0), the shared line is routed to the SysTimer, and 0 is returned. -/
theorem driver_init_state (k : Consts) (s : Sys) :
    (sys_clock_driver_init k s).1.last_systim_count = s.hw.time1u
      ∧ (sys_clock_driver_init k s).1.hw.chcc 0 = (s.hw.time1u + 0xFFBFFFFF) % 2 ^ 32
      ∧ (sys_clock_driver_init k s).1.hw.ch0cfg = 0
      ∧ (sys_clock_driver_init k s).1.hw.imask = s.hw.imask ||| k.SYSTIM_IMSET_EV0_SET
      ∧ (k.SYSTIM_IMSET_EV0_SET = 1 →
          channelActive (sys_clock_driver_init k s).1.hw.imask 0 = true)
      ∧ (sys_clock_driver_init k s).1.hw.irq16sel = k.EVTSVT_CPUIRQ16SEL_PUBID_SYSTIM0
      ∧ (sys_clock_driver_init k s).2 = 0 := by
  refine ⟨rfl, ?_, rfl, rfl, ?_, rfl, rfl⟩
  · simp [sys_clock_driver_init, Sys.writeChcc, Sys.emit, Sys.storeLastCount, u32,
      SYSTIM_TIMEOUT_MAX]
  · intro h1
    have hm : (sys_clock_driver_init k s).1.hw.imask = s.hw.imask ||| 1 := by
      rw [← h1]
      rfl
    rw [hm]
    unfold channelActive
    have hbit : (s.hw.imask ||| 1) &&& (1 <<< 0) = 1 := by
      apply Nat.eq_of_testBit_eq
      intro i
      rw [Nat.testBit_and, Nat.testBit_or]
      cases i with
      | zero => simp
      | succ j => simp [Nat.testBit_succ]
    rw [hbit]
    rfl

/-- C20 with counter reading 123456: the compare register of channel 0 holds
`123456 + 0xFFBFFFFF = 4290896447` and channel 0 is active. -/
theorem driver_init_state_witness :
    (sys_clock_driver_init exampleConsts exampleTicking).1.last_systim_count = 123456
      ∧ (sys_clock_driver_init exampleConsts exampleTicking).1.hw.chcc 0 = 4290896447
      ∧ (sys_clock_driver_init exampleConsts exampleTicking).1.hw.ch0cfg = 0
      ∧ channelActive (sys_clock_driver_init exampleConsts exampleTicking).1.hw.imask 0 = true
      ∧ (sys_clock_driver_init exampleConsts exampleTicking).1.hw.irq16sel = 29
      ∧ (sys_clock_driver_init exampleConsts exampleTicking).2 = 0 :=
  have h := driver_init_state exampleConsts exampleTicking
  ⟨h.1, h.2.1, h.2.2.1, h.2.2.2.2.1 rfl, h.2.2.2.2.2.1, h.2.2.2.2.2.2⟩

/-! ## The power controller: constraints, routing and order of the wake-up -/

/-- With standby disallowed in the constraint mask the flags are: no standby,
idle as the constraint mask says, whatever the clock registers hold. -/
theorem checkConstraints_standby_disallowed (k : Consts) (s : Sys)
    (hdis : s.constraintMask &&& (1 <<< k.PowerLPF3_DISALLOW_STANDBY) ≠ 0) :
    checkConstraints k s
      = (false, (s.constraintMask &&& (1 <<< k.PowerLPF3_DISALLOW_IDLE)) == 0) := by
  unfold checkConstraints
  have hsb : ((s.constraintMask &&& (1 <<< k.PowerLPF3_DISALLOW_STANDBY)) == 0) = false := by
    simpa using hdis
  simp only [hsb, Bool.and_false]
  split <;> simp

/-- C16: if the constraint mask disallows standby, `enterStandby` returns without
entering standby and without touching a register, whatever the clock filter and
the channels are; its only effect is one `__WFI()` when the mask does not
disallow idle, and it has no effect when idle is disallowed too. -/
theorem enterStandby_standby_disallowed (k : Consts) (sleep : HW → HW) (s : Sys)
    (hdis : s.constraintMask &&& (1 <<< k.PowerLPF3_DISALLOW_STANDBY) ≠ 0) :
    ∃ s', enterStandby k sleep s = Outcome.returned s'
      ∧ s'.hw = s.hw
      ∧ s'.trace = s.trace ++
          (if s.constraintMask &&& (1 <<< k.PowerLPF3_DISALLOW_IDLE) = 0 then [Event.wfi]
           else []) := by
  have hc := checkConstraints_standby_disallowed k s hdis
  have hno : ¬ ((checkConstraints k s).1 = true
      ∧ soonestDeadline s > k.PowerCC23X0_TOTALTIMESTANDBY) := by
    rw [hc]
    simp
  obtain ⟨s', hs', hhw, htr⟩ := enterStandby_no_standby_spec k sleep s hno
  refine ⟨s', hs', hhw, ?_⟩
  rw [htr, hc]
  by_cases hidle : s.constraintMask &&& (1 <<< k.PowerLPF3_DISALLOW_IDLE) = 0
  · simp [hidle]
  · simp [hidle]

/-- C16 with only the standby bit set in the constraint mask: one `__WFI()`. -/
theorem enterStandby_standby_disallowed_witness :
    ∃ s', enterStandby exampleConsts wipingSleep
          { exampleTwoChannels with constraintMask := 1 } = Outcome.returned s'
      ∧ s'.hw = exampleTwoChannels.hw
      ∧ s'.trace = exampleTwoChannels.trace ++ [Event.wfi] :=
  enterStandby_standby_disallowed exampleConsts wipingSleep
    { exampleTwoChannels with constraintMask := 1 } (by decide)

/-- C17 (failing input): with interrupt mask `0x20` none of the channels 0..4 is
active and standby is allowed, yet the soonest deadline used is `0xFFFFFFFF`, not
`0xFFBFFFFF`, and the RTC compare register is armed
`(0xFFFFFFFF - 185) / 8 = 536870888` RTC ticks ahead of the reading 1000. -/
theorem soonestDeadline_mask_without_channel :
    (∀ i, i < 5 → channelActive exampleNoChannelMask.hw.imask i = false)
      ∧ (checkConstraints exampleConsts exampleNoChannelMask).1 = true
      ∧ soonestDeadline exampleNoChannelMask = 0xFFFFFFFF
      ∧ soonestDeadline exampleNoChannelMask ≠ MAX_SYSTIMER_DELTA
      ∧ Event.writeRtcCh0cc (1000 + 536870888)
          ∈ (enterStandby exampleConsts wipingSleep exampleNoChannelMask).state.trace := by
  decide

theorem afterWake_irq16sel (k : Consts) (sleep : HW → HW) (s : Sys) :
    (afterWake k sleep s).hw.irq16sel = k.EVTSVT_CPUIRQ16SEL_PUBID_SYSTIM0 := by
  simp [afterWake, standbyWakeRtc, Sys.emit, Sys.writeIrq16Sel]

theorem beforeSleep_irq16sel (k : Consts) (s : Sys) :
    (beforeSleep k s).hw.irq16sel = k.EVTSVT_CPUIRQ16SEL_PUBID_AON_RTC_COMB := by
  simp [beforeSleep, standbyEntry, Sys.emit, Sys.writeIrq16Sel, Sys.writeRtcCh0cc]

/-- The sleep acts on the registers of `beforeSleep` only. -/
theorem afterWake_congr (k : Consts) (sleep sleep2 : HW → HW) (s : Sys)
    (h : sleep2 (beforeSleep k s).hw = sleep (beforeSleep k s).hw) :
    afterWake k sleep2 s = afterWake k sleep s := by
  unfold afterWake powerSleepStandby
  rw [h]

/-- The routing at the end of the standby path, returned or stalled. -/
theorem enterStandby_standby_irq16sel (k : Consts) (sleep : HW → HW) (s : Sys)
    (h1 : (checkConstraints k s).1 = true)
    (h2 : soonestDeadline s > k.PowerCC23X0_TOTALTIMESTANDBY) :
    (enterStandby k sleep s).state.hw.irq16sel = k.EVTSVT_CPUIRQ16SEL_PUBID_SYSTIM0 := by
  rw [enterStandby_standby k sleep s h1 h2]
  cases waitSystimRun k.SYSTIM_STATUS_VAL_RUN (afterWake k sleep s).hw.statusReads with
  | none => exact afterWake_irq16sel k sleep s
  | some rest =>
    simp only [Outcome.state]
    rw [(standbyRestore_spec k s.hw.imask _).2.2.1]
    exact afterWake_irq16sel k sleep s

/-- C18: on the standby path the shared line is routed to the RTC when the sleep
is executed (the routing write precedes the sleep, the sleep acts on registers
whose routing is the RTC) and it is routed to the SysTimer at the end of
`enterStandby`; hence for every input, a line routed to the SysTimer on entry is
routed to the SysTimer at the end. -/
theorem enterStandby_routing (k : Consts) (sleep : HW → HW) (s : Sys) :
    ((checkConstraints k s).1 = true
        ∧ soonestDeadline s > k.PowerCC23X0_TOTALTIMESTANDBY →
        (∃ v tail, (enterStandby k sleep s).state.trace
            = s.trace ++
              [Event.writeIrq16Sel k.EVTSVT_CPUIRQ16SEL_PUBID_AON_RTC_COMB,
               Event.clearInterrupt, Event.writeRtcCh0cc v,
               Event.powerSleep k.PowerLPF3_STANDBY] ++ tail)
          ∧ (beforeSleep k s).hw.irq16sel = k.EVTSVT_CPUIRQ16SEL_PUBID_AON_RTC_COMB
          ∧ (∀ sleep2, sleep2 (beforeSleep k s).hw = sleep (beforeSleep k s).hw →
              enterStandby k sleep2 s = enterStandby k sleep s)
          ∧ (enterStandby k sleep s).state.hw.irq16sel
              = k.EVTSVT_CPUIRQ16SEL_PUBID_SYSTIM0)
      ∧ (s.hw.irq16sel = k.EVTSVT_CPUIRQ16SEL_PUBID_SYSTIM0 →
          (enterStandby k sleep s).state.hw.irq16sel
            = k.EVTSVT_CPUIRQ16SEL_PUBID_SYSTIM0) := by
  constructor
  · rintro ⟨h1, h2⟩
    refine ⟨?_, beforeSleep_irq16sel k s, ?_, enterStandby_standby_irq16sel k sleep s h1 h2⟩
    · obtain ⟨tail, ht⟩ := enterStandby_standby_head k sleep s h1 h2
      exact ⟨_, tail, ht⟩
    · intro sleep2 hs
      rw [enterStandby_standby k sleep2 s h1 h2, enterStandby_standby k sleep s h1 h2,
        afterWake_congr k sleep sleep2 s hs]
  · intro hentry
    by_cases h : (checkConstraints k s).1 = true
        ∧ soonestDeadline s > k.PowerCC23X0_TOTALTIMESTANDBY
    · exact enterStandby_standby_irq16sel k sleep s h.1 h.2
    · obtain ⟨s', hs', hhw, -⟩ := enterStandby_no_standby_spec k sleep s h
      rw [hs']
      simp only [Outcome.state]
      rw [hhw, hentry]

/-- C18 on a standby cycle starting with the line routed to the SysTimer
(publisher 29): the sleep sees the RTC publisher 54, the end sees 29 again. -/
theorem enterStandby_routing_witness :
    (beforeSleep exampleConsts
        { exampleTwoChannels with
          hw := { exampleTwoChannels.hw with irq16sel := 29 } }).hw.irq16sel = 54
      ∧ (enterStandby exampleConsts wipingSleep
          { exampleTwoChannels with
            hw := { exampleTwoChannels.hw with irq16sel := 29 } }).state.hw.irq16sel = 29 :=
  have h := enterStandby_routing exampleConsts wipingSleep
    { exampleTwoChannels with hw := { exampleTwoChannels.hw with irq16sel := 29 } }
  ⟨(h.1 ⟨by decide, by decide⟩).2.1, h.2 rfl⟩

/-- C19: when `enterStandby` returns from standby, its effects are, in order: the
four effects up to the sleep, the five of the RTC clean-up and re-routing, one
write-back of the saved compare value for each channel 0..4 active in the saved
mask and for no other channel, the single write of the saved mask, the clock
re-configuration hook, and last the notification `PowerLPF3_AWAKE_STANDBY`. -/
theorem enterStandby_wake_order (k : Consts) (sleep : HW → HW) (s s' : Sys)
    (h1 : (checkConstraints k s).1 = true)
    (h2 : soonestDeadline s > k.PowerCC23X0_TOTALTIMESTANDBY)
    (hret : enterStandby k sleep s = Outcome.returned s') :
    s'.trace
      = s.trace ++
        [Event.writeIrq16Sel k.EVTSVT_CPUIRQ16SEL_PUBID_AON_RTC_COMB,
         Event.clearInterrupt,
         Event.writeRtcCh0cc
           ((s.hw.rtcTime8u
              + sub32 (soonestDeadline s) k.PowerCC23X0_WAKEDELAYSTANDBY / 8) % 2 ^ 32),
         Event.powerSleep k.PowerLPF3_STANDBY,
         Event.writeRtcArmClr k.RTC_ARMCLR_CH0_CLR,
         Event.writeRtcIclr k.RTC_ICLR_EV0_CLR,
         Event.ullSync,
         Event.clearInterrupt,
         Event.writeIrq16Sel k.EVTSVT_CPUIRQ16SEL_PUBID_SYSTIM0] ++
        ((List.range 5).filter (fun i => channelActive s.hw.imask i)).map
          (fun i => Event.writeChcc i (s.hw.chcc i)) ++
        [Event.writeImask s.hw.imask, Event.lrfdApplyClockDependencies,
         Event.powerNotify k.PowerLPF3_AWAKE_STANDBY] := by
  have ht := enterStandby_standby_trace k sleep s h1 h2
  have he := enterStandby_standby k sleep s h1 h2
  rw [afterWake_statusReads] at he
  rw [afterWake_trace] at ht
  cases hw : waitSystimRun k.SYSTIM_STATUS_VAL_RUN (sleep (beforeSleep k s).hw).statusReads with
  | none =>
    rw [hw] at he
    rw [he] at hret
    cases hret
  | some rest =>
    rw [hw, hret] at ht
    simp only [Outcome.state] at ht
    rw [ht]
    simp [restoreEvents, u32, RTC_TO_SYSTIMER_TICKS, SYSTIMER_CHANNEL_COUNT]

/-- C19 on a standby cycle with channels 0 and 2 active: the two write-backs come
before the write of the mask 5, the hook and the notification come after it. -/
theorem enterStandby_wake_order_witness :
    (enterStandby exampleConsts wipingSleep exampleTwoChannels).state.trace
      = [Event.writeIrq16Sel 54, Event.clearInterrupt, Event.writeRtcCh0cc 38476,
         Event.powerSleep 1, Event.writeRtcArmClr 1, Event.writeRtcIclr 1, Event.ullSync,
         Event.clearInterrupt, Event.writeIrq16Sel 29,
         Event.writeChcc 0 500000, Event.writeChcc 2 1200000,
         Event.writeImask 5, Event.lrfdApplyClockDependencies, Event.powerNotify 2] :=
  enterStandby_wake_order exampleConsts wipingSleep exampleTwoChannels
    (enterStandby exampleConsts wipingSleep exampleTwoChannels).state
    (by decide) (by decide) rfl

/-! ## The tick source: reading the elapsed ticks, sequences of interrupts -/

theorem elapsed_ticks_lt (T current last : Nat) :
    sys_clock_elapsed_ticks T current last < 4294967296 := by
  unfold sys_clock_elapsed_ticks
  split
  · exact sub32_lt _ _
  · exact u32_lt _

/-- A `uint32_t` converted to `int32_t` and back is unchanged. -/
theorem toU32_toI32 (n : Nat) (h : n < 4294967296) : toU32 (toI32 n) = n := by
  unfold toU32 toI32
  split <;> omega

/-- C21: `sys_clock_elapsed` returns `sys_clock_elapsed_ticks(c, last_systim_count)`
for the counter reading `c` and leaves the whole state, `last_systim_count` and
every register, as it is; a second call at the same reading returns the same
value. -/
theorem sys_clock_elapsed_pure (k : Consts) (s : Sys) :
    (sys_clock_elapsed k s).2
        = sys_clock_elapsed_ticks k.TICK_PERIOD_SYS s.hw.time1u s.last_systim_count
      ∧ (sys_clock_elapsed k s).1 = s
      ∧ (sys_clock_elapsed k (sys_clock_elapsed k s).1).2 = (sys_clock_elapsed k s).2 := by
  refine ⟨?_, rfl, rfl⟩
  simp only [sys_clock_elapsed]
  exact toU32_toI32 _ (elapsed_ticks_lt _ _ _)

/-- The wrap branch as a sum of two quotients. -/
theorem elapsed_ticks_of_lt {T current last : Nat} (hl : last < 4294967296)
    (hlt : current < last) :
    sys_clock_elapsed_ticks T current last = (4294967295 - last) / T + current / T := by
  have h1 : (4294967295 - last) / T ≤ 4294967295 - last := Nat.div_le_self _ _
  have h2 : current / T ≤ current := Nat.div_le_self _ _
  unfold sys_clock_elapsed_ticks
  rw [if_neg (by omega), sub32_of_le (by norm_num) (by omega)]
  exact u32_of_lt (by omega)

/-- C26: in the wraparound branch (`current < last`), with
`d = 2^32 - last + current` the forward distance and `T ≥ 1`,
`sys_clock_elapsed_ticks` is at most `d / T` and at least `d / T - 1`. -/
theorem elapsed_ticks_wrap_bounds (T current last : Nat) (hT : 1 ≤ T)
    (hl : last < 2 ^ 32) (hlt : current < last) :
    (2 ^ 32 - last + current) / T - 1 ≤ sys_clock_elapsed_ticks T current last
      ∧ sys_clock_elapsed_ticks T current last ≤ (2 ^ 32 - last + current) / T := by
  rw [two_pow_32] at hl ⊢
  rw [elapsed_ticks_of_lt hl hlt]
  have hd : 4294967296 - last + current = (4294967295 - last) + current + 1 := by omega
  rw [hd]
  generalize 4294967295 - last = a
  have ha := Nat.div_add_mod a T
  have hc := Nat.div_add_mod current T
  have hra : a % T < T := Nat.mod_lt _ hT
  have hrc : current % T < T := Nat.mod_lt _ hT
  generalize a / T = qa at ha ⊢
  generalize a % T = ra at ha hra
  generalize current / T = qc at hc ⊢
  generalize current % T = rc at hc hrc
  generalize hpa : T * qa = pa at ha
  generalize hpc : T * qc = pc at hc
  constructor
  · have hlt2 : (a + current + 1) / T < qa + qc + 2 := by
      rw [Nat.div_lt_iff_lt_mul hT]
      have hexp : (qa + qc + 2) * T = T * qa + T * qc + 2 * T := by ring
      rw [hexp, hpa, hpc]
      omega
    omega
  · rw [Nat.le_div_iff_mul_le hT]
    have hexp : (qa + qc) * T = T * qa + T * qc := by ring
    rw [hexp, hpa, hpc]
    omega

/-- C26 at tick period 10, `last = 2^32 - 10`, `current = 5`: the distance is 15,
the code returns 0, one less than `15 / 10`. -/
theorem elapsed_ticks_wrap_bounds_witness :
    (2 ^ 32 - 4294967286 + 5) / 10 - 1 ≤ sys_clock_elapsed_ticks 10 5 4294967286
      ∧ sys_clock_elapsed_ticks 10 5 4294967286 ≤ (2 ^ 32 - 4294967286 + 5) / 10 :=
  elapsed_ticks_wrap_bounds 10 5 4294967286 (by decide) (by decide) (by decide)

/-- C22: `pm_state_set` ignores the substate; for `PM_STATE_RUNTIME_IDLE` its
only effect is one `__WFI()` (no register, not even the stash of the
standby-entry algorithm, is touched); for `PM_STATE_STANDBY` it is
`enterStandby`; for `PM_STATE_SOFT_OFF` its only effect is `Power_shutdown`; for
every other state it has no effect. -/
theorem pm_state_set_dispatch (k : Consts) (sleep : HW → HW) (sub : Nat) (s : Sys) :
    pm_state_set k sleep pm_state.PM_STATE_RUNTIME_IDLE sub s
        = Outcome.returned { s with trace := s.trace ++ [Event.wfi] }
      ∧ pm_state_set k sleep pm_state.PM_STATE_STANDBY sub s = enterStandby k sleep s
      ∧ pm_state_set k sleep pm_state.PM_STATE_SOFT_OFF sub s
          = Outcome.returned { s with trace := s.trace ++ [Event.powerShutdown] }
      ∧ (∀ state, state ≠ pm_state.PM_STATE_RUNTIME_IDLE →
          state ≠ pm_state.PM_STATE_STANDBY → state ≠ pm_state.PM_STATE_SOFT_OFF →
          pm_state_set k sleep state sub s = Outcome.returned s)
      ∧ (∀ state sub2, pm_state_set k sleep state sub2 s = pm_state_set k sleep state sub s) := by
  refine ⟨rfl, rfl, rfl, ?_, ?_⟩
  · intro state h1 h2 h3
    cases state <;> first | rfl | contradiction
  · intro state sub2
    cases state <;> rfl

/-- C22 on the state `PM_STATE_SUSPEND_TO_RAM`, which has no case of its own. -/
theorem pm_state_set_dispatch_witness :
    pm_state_set exampleConsts wipingSleep pm_state.PM_STATE_SUSPEND_TO_RAM 7
        exampleTwoChannels = Outcome.returned exampleTwoChannels :=
  (pm_state_set_dispatch exampleConsts wipingSleep 7 exampleTwoChannels).2.2.2.1
    pm_state.PM_STATE_SUSPEND_TO_RAM (by decide) (by decide) (by decide)

/-- C23: if standby is allowed and an active channel `i` of 0..4 has a native
delta `(cc_i - (now << s_i)) mod 2^32` greater than `0xFFBFFFFF`, the soonest
deadline is 0 and `enterStandby`, for every latency constant, returns without
entering standby and without touching a register; its only effect is one
`__WFI()` if idle is allowed, and nothing otherwise. -/
theorem enterStandby_past_deadline (k : Consts) (sleep : HW → HW) (s : Sys) (i : Nat)
    (_h1 : (checkConstraints k s).1 = true) (hi : i < 5)
    (ha : channelActive s.hw.imask i = true)
    (hpast : (((s.hw.chcc i : Int) - ((s.hw.time1u <<< specShift i : Nat) : Int))
                % 2 ^ 32).toNat > 0xFFBFFFFF) :
    soonestDeadline s = 0
      ∧ ∃ s', enterStandby k sleep s = Outcome.returned s'
          ∧ s'.hw = s.hw
          ∧ s'.trace = s.trace ++
              (if (checkConstraints k s).2 = true then [Event.wfi] else []) := by
  have hspec : specChannelDeadline s.hw i = 0 := by
    unfold specChannelDeadline specClamp
    rw [if_pos hpast, Nat.zero_shiftRight]
  have hle := (soonestDeadline_min_delta s ⟨i, hi, ha⟩).2 i hi ha
  rw [channelDelta_eq_spec, hspec] at hle
  have hd : soonestDeadline s = 0 := by omega
  refine ⟨hd, ?_⟩
  exact enterStandby_no_standby_spec k sleep s (fun h => absurd h.2 (by omega))

/-- C23 with the counter at 1000 and channel 0 armed at 900: the delta
`(900 - 1000) mod 2^32` exceeds `0xFFBFFFFF`, the deadline is 0, one `__WFI()`. -/
theorem enterStandby_past_deadline_witness :
    soonestDeadline examplePastDeadline = 0
      ∧ ∃ s', enterStandby exampleConsts wipingSleep examplePastDeadline = Outcome.returned s'
          ∧ s'.hw = examplePastDeadline.hw
          ∧ s'.trace = examplePastDeadline.trace ++ [Event.wfi] :=
  enterStandby_past_deadline exampleConsts wipingSleep examplePastDeadline 0
    (by decide) (by decide) (by decide) (by decide)

/-- C25: provided `PowerCC23X0_WAKEDELAYSTANDBY ≤ PowerCC23X0_TOTALTIMESTANDBY`,
whenever `enterStandby` enters standby with soonest deadline `d`, the
subtraction `d - WAKEDELAY` does not underflow and the delay `q = (d - WAKEDELAY) / 8`
written (added to the RTC reading) satisfies `d - WAKEDELAY - 8 < 8 q ≤ d - WAKEDELAY`,
so that `8 q + WAKEDELAY ≤ d`. -/
theorem enterStandby_wakes_early (k : Consts) (sleep : HW → HW) (s : Sys)
    (hW : k.PowerCC23X0_WAKEDELAYSTANDBY ≤ k.PowerCC23X0_TOTALTIMESTANDBY)
    (h1 : (checkConstraints k s).1 = true)
    (h2 : soonestDeadline s > k.PowerCC23X0_TOTALTIMESTANDBY) :
    k.PowerCC23X0_WAKEDELAYSTANDBY ≤ soonestDeadline s
      ∧ sub32 (soonestDeadline s) k.PowerCC23X0_WAKEDELAYSTANDBY
          = soonestDeadline s - k.PowerCC23X0_WAKEDELAYSTANDBY
      ∧ soonestDeadline s - k.PowerCC23X0_WAKEDELAYSTANDBY
          < 8 * (sub32 (soonestDeadline s) k.PowerCC23X0_WAKEDELAYSTANDBY / 8) + 8
      ∧ 8 * (sub32 (soonestDeadline s) k.PowerCC23X0_WAKEDELAYSTANDBY / 8)
          ≤ soonestDeadline s - k.PowerCC23X0_WAKEDELAYSTANDBY
      ∧ 8 * (sub32 (soonestDeadline s) k.PowerCC23X0_WAKEDELAYSTANDBY / 8)
          + k.PowerCC23X0_WAKEDELAYSTANDBY ≤ soonestDeadline s
      ∧ (∃ tail, (enterStandby k sleep s).state.trace
          = s.trace ++
            [Event.writeIrq16Sel k.EVTSVT_CPUIRQ16SEL_PUBID_AON_RTC_COMB,
             Event.clearInterrupt,
             Event.writeRtcCh0cc
               ((s.hw.rtcTime8u
                  + sub32 (soonestDeadline s) k.PowerCC23X0_WAKEDELAYSTANDBY / 8) % 2 ^ 32),
             Event.powerSleep k.PowerLPF3_STANDBY] ++ tail) := by
  have hd := soonestDeadline_le_u32_max s
  have hle : k.PowerCC23X0_WAKEDELAYSTANDBY ≤ soonestDeadline s := by omega
  have hsub : sub32 (soonestDeadline s) k.PowerCC23X0_WAKEDELAYSTANDBY
      = soonestDeadline s - k.PowerCC23X0_WAKEDELAYSTANDBY := sub32_of_le (by omega) hle
  refine ⟨hle, hsub, ?_, ?_, ?_, enterStandby_standby_head k sleep s h1 h2⟩
  · rw [hsub]; omega
  · rw [hsub]; omega
  · rw [hsub]; omega

/-- C25 with latency 500, wake delay 185 and deadline 300000: `q = 37476` and
`8 * 37476 + 185 = 299993 ≤ 300000`. -/
theorem enterStandby_wakes_early_witness :
    sub32 (soonestDeadline exampleTwoChannels) exampleConsts.PowerCC23X0_WAKEDELAYSTANDBY / 8
        = 37476
      ∧ 8 * (sub32 (soonestDeadline exampleTwoChannels)
              exampleConsts.PowerCC23X0_WAKEDELAYSTANDBY / 8)
          + exampleConsts.PowerCC23X0_WAKEDELAYSTANDBY ≤ soonestDeadline exampleTwoChannels :=
  ⟨by decide,
   (enterStandby_wakes_early exampleConsts wipingSleep exampleTwoChannels
      (by decide) (by decide) (by decide)).2.2.2.2.1⟩

/-- C27: if a call of `enterStandby` does not perform the standby sleep (standby
disallowed by the constraints, filter unsettled, or deadline not beyond the
latency), it returns with every register as on entry, in particular the routing
of the shared line, the RTC compare value, the compare values of all channels and
the interrupt mask, and it has performed no register write: its effects are at
most one `__WFI()`. -/
theorem enterStandby_frame (k : Consts) (sleep : HW → HW) (s : Sys)
    (hno : Event.powerSleep k.PowerLPF3_STANDBY
            ∉ (enterStandby k sleep s).state.trace.drop s.trace.length) :
    ¬ ((checkConstraints k s).1 = true
        ∧ soonestDeadline s > k.PowerCC23X0_TOTALTIMESTANDBY)
      ∧ ∃ s', enterStandby k sleep s = Outcome.returned s'
          ∧ s'.hw = s.hw
          ∧ s'.hw.irq16sel = s.hw.irq16sel
          ∧ s'.hw.rtcCh0cc = s.hw.rtcCh0cc
          ∧ (∀ i, s'.hw.chcc i = s.hw.chcc i)
          ∧ s'.hw.imask = s.hw.imask
          ∧ (s'.trace = s.trace ∨ s'.trace = s.trace ++ [Event.wfi]) := by
  have hnot : ¬ ((checkConstraints k s).1 = true
      ∧ soonestDeadline s > k.PowerCC23X0_TOTALTIMESTANDBY) := by
    intro h
    obtain ⟨tail, ht⟩ := enterStandby_standby_head k sleep s h.1 h.2
    apply hno
    rw [ht, List.append_assoc, List.drop_left]
    simp
  refine ⟨hnot, ?_⟩
  obtain ⟨s', hs', hhw, htr⟩ := enterStandby_no_standby_spec k sleep s hnot
  refine ⟨s', hs', hhw, by rw [hhw], by rw [hhw], fun i => by rw [hhw], by rw [hhw], ?_⟩
  rw [htr]
  split
  · right; rfl
  · left; simp

/-- C27 on a deadline 600us ahead with latency 600: no sleep, registers as on
entry. -/
theorem enterStandby_frame_witness :
    ∃ s', enterStandby { exampleConsts with PowerCC23X0_TOTALTIMESTANDBY := 600 }
          wipingSleep exampleNearDeadline = Outcome.returned s'
      ∧ s'.hw = exampleNearDeadline.hw :=
  have h := (enterStandby_frame { exampleConsts with PowerCC23X0_TOTALTIMESTANDBY := 600 }
    wipingSleep exampleNearDeadline (by decide)).2
  ⟨h.choose, h.choose_spec.1, h.choose_spec.2.1⟩

/-! ## The HCI driver -/

/-- After the first entry a call of `hci_driver_send` is its body. -/
theorem hci_driver_send_depth_not_first (env : HciEnv) (depth : Nat) (st : HciState)
    (buf : NetBuf) (h : st.first_entry = false) :
    hci_driver_send_depth env (depth + 1) st buf = hci_driver_send_body env st buf := by
  simp [hci_driver_send_depth, h]

/-- The call of line 333 happens after `first_entry` has been cleared, so it is
the body whatever the nesting bound is. -/
theorem vs_set_bd_addr_depth (env : HciEnv) (depth : Nat) (st : HciState)
    (h : st.first_entry = false) :
    vs_set_bd_addr (hci_driver_send_depth env (depth + 1)) env st
      = vs_set_bd_addr (hci_driver_send_body env) env st := by
  have hsend : ∀ b, hci_driver_send_depth env (depth + 1) st b
      = hci_driver_send_body env st b :=
    fun b => hci_driver_send_depth_not_first env depth st b h
  unfold vs_set_bd_addr
  simp only [hsend]

/-- A call of `hci_driver_send` with room for two activations, in terms of the
body alone. -/
theorem hci_driver_send_depth_eq (env : HciEnv) (depth : Nat) (st : HciState)
    (buf : NetBuf) :
    hci_driver_send_depth env (depth + 2) st buf
      = if st.first_entry then
          match vs_set_bd_addr (hci_driver_send_body env) env
              { st with trace := st.trace ++ [HciEvent.icallRegisterApp],
                        first_entry := false } with
          | Except.error f => Except.error f
          | Except.ok st => hci_driver_send_body env st buf
        else hci_driver_send_body env st buf := by
  rw [hci_driver_send_depth]
  split
  · simp only []
    rw [vs_set_bd_addr_depth env depth]
    rfl
  · rfl

/-- Two nested activations are enough: a larger bound gives the same result. -/
theorem hci_driver_send_depth_stable (env : HciEnv) (depth : Nat) (st : HciState)
    (buf : NetBuf) :
    hci_driver_send_depth env (depth + 2) st buf = hci_driver_send env st buf := by
  have h0 := hci_driver_send_depth_eq env 0 st buf
  rw [hci_driver_send_depth_eq env depth st buf]
  unfold hci_driver_send
  exact h0.symm

/-- A command or outgoing ACL buffer sent after the first entry is handed over as
one H4 byte followed by its contents. -/
theorem hci_driver_send_body_packet (env : HciEnv) (st : HciState) (buf : NetBuf)
    (hne : buf.data ≠ []) (ht : buf.type = BT_BUF_CMD ∨ buf.type = BT_BUF_ACL_OUT) :
    ∃ r, hci_driver_send_body env st buf = Except.ok r
      ∧ r.1.trace
          = st.trace ++
            [HciEvent.hostToController
               ((if buf.type = BT_BUF_CMD then 0x01 else 0x02) :: buf.data),
             HciEvent.netBufUnref] := by
  have hlen : buf.data.length ≠ 0 := by
    intro h
    exact hne (List.length_eq_zero.mp h)
  rcases ht with ht | ht
  · unfold hci_driver_send_body
    rw [if_neg hlen]
    simp only [hci_driver_add_pkt_type, ht]
    by_cases hs : SUCCESS ≠ env.hostToControllerStatus (BT_HCI_H4_CMD :: buf.data)
    · exact ⟨_, by
        simp [translation_array_out, BT_BUF_CMD, BT_HCI_H4_CMD, HCI_TYPE_INVALID, SUCCESS] at hs ⊢
        rw [if_neg hs], by simp [BT_BUF_CMD]⟩
    · exact ⟨_, by
        simp [translation_array_out, BT_BUF_CMD, BT_HCI_H4_CMD, HCI_TYPE_INVALID, SUCCESS] at hs ⊢
        rw [if_pos hs], by simp [BT_BUF_CMD]⟩
  · unfold hci_driver_send_body
    rw [if_neg hlen]
    simp only [hci_driver_add_pkt_type, ht]
    by_cases hs : SUCCESS ≠ env.hostToControllerStatus (BT_HCI_H4_ACL :: buf.data)
    · exact ⟨_, by
        simp [translation_array_out, BT_BUF_ACL_OUT, BT_HCI_H4_ACL, HCI_TYPE_INVALID, SUCCESS]
          at hs ⊢
        rw [if_neg hs], by simp [BT_BUF_CMD, BT_BUF_ACL_OUT]⟩
    · exact ⟨_, by
        simp [translation_array_out, BT_BUF_ACL_OUT, BT_HCI_H4_ACL, HCI_TYPE_INVALID, SUCCESS]
          at hs ⊢
        rw [if_pos hs], by simp [BT_BUF_CMD, BT_BUF_ACL_OUT]⟩

theorem hci_driver_send_body_bound (env : HciEnv) (st : HciState) (buf : NetBuf) :
    hci_driver_send_body env st buf ≠ Except.error HciFault.nestingBound := by
  unfold hci_driver_send_body
  split
  · simp
  · split
    · simp
    · split
      · simp
      · simp only []
        split <;> simp

theorem vs_set_bd_addr_bound (env : HciEnv) (st : HciState) :
    vs_set_bd_addr (hci_driver_send_body env) env st
      ≠ Except.error HciFault.nestingBound := by
  unfold vs_set_bd_addr
  split
  · split
    · split
      · simp
      · simp only []
        split
        · simp
        · split
          · rename_i f hf
            intro h
            simp only [Except.error.injEq] at h
            subst h
            exact hci_driver_send_body_bound env _ _ hf
          · simp
    · simp
  · simp

/-- A call of `hci_driver_send` never reaches the nesting bound of the model. -/
theorem hci_driver_send_bound (env : HciEnv) (st : HciState) (buf : NetBuf) :
    hci_driver_send env st buf ≠ Except.error HciFault.nestingBound := by
  unfold hci_driver_send
  rw [hci_driver_send_depth_eq env 0 st buf]
  split
  · split
    · rename_i f hf
      intro h
      simp only [Except.error.injEq] at h
      subst h
      exact vs_set_bd_addr_bound env _ hf
    · exact hci_driver_send_body_bound env _ _
  · exact hci_driver_send_body_bound env _ _

/-- C28 (failing input): on the first `hci_driver_send` after
`bt_ctlr_set_public_addr`, with `CONFIG_HCI_HOST` defined, the vendor command
built by `vs_set_bd_addr` (payload `0c fc 06` and the six address bytes) is
handed to `HCI_HostToController` with two H4 bytes `01 01` in front, while the
caller's reset command is handed over with one. -/
theorem hci_driver_send_vendor_cmd_two_type_bytes :
    (match hci_driver_send exampleHciEnv
        (bt_ctlr_set_public_addr [1, 2, 3, 4, 5, 6] exampleHciInit) exampleResetCmd with
      | Except.ok r => some r.1.trace
      | Except.error _ => none)
      = some [HciEvent.icallRegisterApp,
              HciEvent.hostToController [0x01, 0x01, 0x0c, 0xfc, 0x06, 1, 2, 3, 4, 5, 6],
              HciEvent.netBufUnref,
              HciEvent.hostToController [0x01, 0x03, 0x0c, 0x00],
              HciEvent.netBufUnref]
      ∧ [0x01, 0x01, 0x0c, 0xfc, 0x06, 1, 2, 3, 4, 5, 6]
          ≠ 0x01 :: ([0x0c, 0xfc, 0x06] ++ [1, 2, 3, 4, 5, 6]) := by
  decide

/-- C29 (failing input): a controller packet whose first byte is `0xFF` makes
`hci_evt_create` read entry 255 of the six-entry `translation_array_in`; bytes
0..5 are in bounds and give `NULL` unless the byte is 2 or 4. -/
theorem hci_evt_create_index_out_of_bounds :
    translation_array_in.length = 6
      ∧ translation_array_in.get? 0xFF = none
      ∧ hci_evt_create exampleHciEnv [0xFF, 0x0e, 0x00] = EvtResult.outOfBounds
      ∧ hci_evt_create exampleHciEnv [0x06, 0x0e, 0x00] = EvtResult.outOfBounds
      ∧ (∀ b, b < 6 → (translation_array_in.get? b).isSome = true)
      ∧ (∀ b, b < 6 → b ≠ 2 → b ≠ 4 →
          hci_evt_create exampleHciEnv [b, 0x0e, 0x00] = EvtResult.null) := by
  decide

end CC23x0
